import Mathlib

/-!
# GPIO external-interrupt driver of the TMPM4KN target

Shallow embedding of `targets/TARGET_TOSHIBA/TARGET_TMPM4KN/gpio_irq_api.c`.

* The C globals (`channel_ids`, `hal_irq_handler`, `CurrentState`), the bytes of the
  `TSB_IB` register block, the interrupt-controller flags and the GPIO data bits form
  the explicit `State`; every externally visible effect is also appended to `State.trace`.
* Machine integers are `Nat`; a store through a `uint8_t *` keeps the value modulo 256.
* A function returns an `Outcome`: `ok` when the C function returns, `halt` when the run
  stops (call through a null pointer, array index out of bounds, the fatal `error`).
* What the file takes from absent headers (enumerator values of `CG_INTActiveState`,
  the macros `PIN_PORT` / `PIN_POS`, the addresses of the `TSB_IB` registers) is the
  parameter `Target`.
-/

namespace GpioIrq

/-! ## Constants of the source file -/

def CHANNEL_NUM : Nat := 22
def DISABLE : Nat := 0
def ENABLE : Nat := 1
def CLR_INT_FLAG : Nat := 0xC0

/-- Pin names used by the source file; `other n` stands for any further pin of the
board's `PinName` enumeration, `NC` for "not connected". -/
inductive PinName where
  | PA2 | PA4 | PC3 | PE3 | PE5 | PU1 | PU3 | PU6 | PC2 | PE4 | PU0 | PU5
  | PA1 | PN1 | PD1 | PD5 | PG3
  | NC
  | other (n : Nat)
  deriving DecidableEq, Repr

/-- Edge argument of the HAL (`gpio_irq_event` of `gpio_irq_api.h`). -/
inductive gpio_irq_event where
  | IRQ_NONE | IRQ_RISE | IRQ_FALL
  deriving DecidableEq, Repr

/-- Registers of the `TSB_IB` block that the source file names. -/
inductive IMCReg where
  | IMC033 | IMC034 | IMC050 | IMC052 | IMC054 | IMC056 | IMC058 | IMC059 | IMC069
  deriving DecidableEq, Repr

/-- Declarations the source file takes from headers that are not part of it: the four
enumerators of `CG_INTActiveState` it names, the macros `PIN_PORT` and `PIN_POS`, and the
address of each named register of `TSB_IB`. -/
structure Target where
  CG_INT_ACTIVE_STATE_INVALID : Nat
  CG_INT_ACTIVE_STATE_RISING : Nat
  CG_INT_ACTIVE_STATE_FALLING : Nat
  CG_INT_ACTIVE_STATE_BOTH_EDGES : Nat
  PIN_PORT : PinName → Nat
  PIN_POS : PinName → Nat
  IMC : IMCReg → Nat

/-- The four policy enumerators are pairwise different values. -/
def Target.distinct (T : Target) : Prop :=
  T.CG_INT_ACTIVE_STATE_INVALID ≠ T.CG_INT_ACTIVE_STATE_RISING ∧
  T.CG_INT_ACTIVE_STATE_INVALID ≠ T.CG_INT_ACTIVE_STATE_FALLING ∧
  T.CG_INT_ACTIVE_STATE_INVALID ≠ T.CG_INT_ACTIVE_STATE_BOTH_EDGES ∧
  T.CG_INT_ACTIVE_STATE_RISING ≠ T.CG_INT_ACTIVE_STATE_FALLING ∧
  T.CG_INT_ACTIVE_STATE_RISING ≠ T.CG_INT_ACTIVE_STATE_BOTH_EDGES ∧
  T.CG_INT_ACTIVE_STATE_FALLING ≠ T.CG_INT_ACTIVE_STATE_BOTH_EDGES

instance (T : Target) : Decidable T.distinct := by
  unfold Target.distinct; infer_instance

/-- The four policy enumerators fit the one-byte register field. -/
def Target.bytes (T : Target) : Prop :=
  T.CG_INT_ACTIVE_STATE_INVALID < 256 ∧
  T.CG_INT_ACTIVE_STATE_RISING < 256 ∧
  T.CG_INT_ACTIVE_STATE_FALLING < 256 ∧
  T.CG_INT_ACTIVE_STATE_BOTH_EDGES < 256

instance (T : Target) : Decidable T.bytes := by
  unfold Target.bytes; infer_instance

/-- Sample target on which the definitions are evaluated: mode values 0x0A / 0x06 /
0x04 / 0x08 (mode in bits 3..1, enable in bit 0), pins numbered port * 8 + bit, the
named registers two bytes apart in the order of their numbers. -/
def sampleTarget : Target where
  CG_INT_ACTIVE_STATE_INVALID := 0x0A
  CG_INT_ACTIVE_STATE_RISING := 0x06
  CG_INT_ACTIVE_STATE_FALLING := 0x04
  CG_INT_ACTIVE_STATE_BOTH_EDGES := 0x08
  PIN_PORT := fun p =>
    match p with
    | .PA1 | .PA2 | .PA4 => 0
    | .PC2 | .PC3 => 2
    | .PD1 | .PD5 => 3
    | .PE3 | .PE4 | .PE5 => 4
    | .PG3 => 6
    | .PN1 => 12
    | .PU0 | .PU1 | .PU3 | .PU5 | .PU6 => 17
    | .NC => 0xFF
    | .other n => (n / 8) % 256
  PIN_POS := fun p =>
    match p with
    | .PU0 => 0
    | .PA1 | .PD1 | .PN1 | .PU1 => 1
    | .PA2 | .PC2 => 2
    | .PC3 | .PE3 | .PG3 | .PU3 => 3
    | .PA4 | .PE4 => 4
    | .PD5 | .PE5 | .PU5 => 5
    | .PU6 => 6
    | .NC => 7
    | .other n => n % 8
  IMC := fun r =>
    match r with
    | .IMC033 => 0x400F4E42
    | .IMC034 => 0x400F4E44
    | .IMC050 => 0x400F4E64
    | .IMC052 => 0x400F4E68
    | .IMC054 => 0x400F4E6C
    | .IMC056 => 0x400F4E70
    | .IMC058 => 0x400F4E74
    | .IMC059 => 0x400F4E76
    | .IMC069 => 0x400F4E8A

/-! ## The static pin table -/

/-- Modelled from the spec: `PeripheralNames.h` is absent; the enumerator `GPIO_IRQ_n`
of the table is the logical interrupt channel `n`, the suffix read in hexadecimal (the
vector bindings `INTnn_IRQHandler` of the source pair the same pins with these numbers). -/
def GPIO_IRQ_0 : Nat := 0
/-- Modelled from the spec: channel 1, see `GPIO_IRQ_0`. -/
def GPIO_IRQ_1 : Nat := 1
/-- Modelled from the spec: channel 3, see `GPIO_IRQ_0`. -/
def GPIO_IRQ_3 : Nat := 3
/-- Modelled from the spec: channel 4, see `GPIO_IRQ_0`. -/
def GPIO_IRQ_4 : Nat := 4
/-- Modelled from the spec: channel 5, see `GPIO_IRQ_0`. -/
def GPIO_IRQ_5 : Nat := 5
/-- Modelled from the spec: channel 7, see `GPIO_IRQ_0`. -/
def GPIO_IRQ_7 : Nat := 7
/-- Modelled from the spec: channel 8, see `GPIO_IRQ_0`. -/
def GPIO_IRQ_8 : Nat := 8
/-- Modelled from the spec: channel 9, see `GPIO_IRQ_0`. -/
def GPIO_IRQ_9 : Nat := 9
/-- Modelled from the spec: channel 10, see `GPIO_IRQ_0`. -/
def GPIO_IRQ_A : Nat := 10
/-- Modelled from the spec: channel 11, see `GPIO_IRQ_0`. -/
def GPIO_IRQ_B : Nat := 11
/-- Modelled from the spec: channel 12, see `GPIO_IRQ_0`. -/
def GPIO_IRQ_C : Nat := 12
/-- Modelled from the spec: channel 13, see `GPIO_IRQ_0`. -/
def GPIO_IRQ_D : Nat := 13
/-- Modelled from the spec: channel 15, see `GPIO_IRQ_0`. -/
def GPIO_IRQ_F : Nat := 15
/-- Modelled from the spec: channel 16, see `GPIO_IRQ_0`. -/
def GPIO_IRQ_10 : Nat := 16
/-- Modelled from the spec: channel 17, see `GPIO_IRQ_0`. -/
def GPIO_IRQ_11 : Nat := 17
/-- Modelled from the spec: channel 18, see `GPIO_IRQ_0`. -/
def GPIO_IRQ_12 : Nat := 18
/-- Modelled from the spec: channel 21, see `GPIO_IRQ_0`. -/
def GPIO_IRQ_15 : Nat := 21

/-- One row of a pin map: pin, peripheral, function data. -/
structure PinMap where
  pin : PinName
  peripheral : Nat
  function : Nat
  deriving DecidableEq, Repr

/-- The rows of `PinMap_GPIO_IRQ` before its terminating `{NC, NC, 0}` row;
`PIN_DATA(0, 0)` is kept as the function datum 0. -/
def PinMap_GPIO_IRQ : List PinMap :=
  [ ⟨.PA2, GPIO_IRQ_0, 0⟩,
    ⟨.PA4, GPIO_IRQ_1, 0⟩,
    ⟨.PC3, GPIO_IRQ_3, 0⟩,
    ⟨.PE3, GPIO_IRQ_4, 0⟩,
    ⟨.PE5, GPIO_IRQ_5, 0⟩,
    ⟨.PU1, GPIO_IRQ_7, 0⟩,
    ⟨.PU3, GPIO_IRQ_8, 0⟩,
    ⟨.PU6, GPIO_IRQ_9, 0⟩,
    ⟨.PC2, GPIO_IRQ_A, 0⟩,
    ⟨.PE4, GPIO_IRQ_B, 0⟩,
    ⟨.PU0, GPIO_IRQ_C, 0⟩,
    ⟨.PU5, GPIO_IRQ_D, 0⟩,
    ⟨.PA1, GPIO_IRQ_F, 0⟩,
    ⟨.PN1, GPIO_IRQ_10, 0⟩,
    ⟨.PD1, GPIO_IRQ_11, 0⟩,
    ⟨.PD5, GPIO_IRQ_12, 0⟩,
    ⟨.PG3, GPIO_IRQ_15, 0⟩ ]

/-- Modelled from the spec: `pinmap_peripheral` lives in the HAL's pin-map code, which
is absent. The spec: "resolves channel via static pin table (fails/aborts if pin
unmapped)". `none` is the failing case. -/
def pinmap_peripheral (pin : PinName) : List PinMap → Option Nat
  | [] => none
  | e :: rest => if e.pin = pin then some e.peripheral else pinmap_peripheral pin rest

/-! ## State, effects, outcomes -/

/-- Externally visible effects, in the order the code performs them. -/
inductive Effect where
  | critical_section_enter
  | critical_section_exit
  | gpio_write_bit (port pin val : Nat)
  | gpio_read_bit (port pin : Nat)
  | pinmap_pinout (pin : PinName)
  | NVIC_ClearPendingIRQ (irq : Nat)
  | NVIC_EnableIRQ (irq : Nat)
  | NVIC_DisableIRQ (irq : Nat)
  | store8 (addr val : Nat)
  | load8 (addr : Nat)
  | store_handler (index : Nat) (handler : Option Nat)
  | store_id (index : Nat) (id : Nat)
  | store_CurrentState (val : Nat)
  | callback (handler : Nat) (id : Nat) (event : gpio_irq_event)
  | error
  deriving DecidableEq, Repr

/-- Globals of the source file and the hardware it drives. A handler is `none` for
`NULL` and `some f` for the function `f`. -/
structure State where
  channel_ids : Nat → Nat
  hal_irq_handler : Nat → Option Nat
  CurrentState : Nat
  mem : Nat → Nat
  nvic_enabled : Nat → Bool
  nvic_pending : Nat → Bool
  gpio_data : Nat → Nat → Nat
  trace : List Effect

/-- The caller-owned `gpio_irq_t`. -/
structure gpio_irq_t where
  irq_id : Nat
  port : Nat
  pin_num : Nat
  irq_src : Nat
  event : Nat
  deriving DecidableEq, Repr

/-- Why a run stops without returning. -/
inductive Halt where
  | null_call
  | out_of_bounds
  | fatal_error
  deriving DecidableEq, Repr

/-- Result of running a C function: it returns `ret` in state `s`, or the run stops
in state `s`. -/
inductive Outcome (α σ : Type) where
  | ok (ret : α) (s : σ)
  | halt (why : Halt) (s : σ)

/-- State of static storage at program start: the three globals are zero-initialised;
the hardware part of `hw` is kept. -/
def boot (hw : State) : State :=
  { hw with channel_ids := fun _ => 0, hal_irq_handler := fun _ => none, CurrentState := 0 }

/-! ## External primitives -/

def emit (e : Effect) (s : State) : State :=
  { s with trace := s.trace ++ [e] }

/-- Store through a `uint8_t *`. -/
def store8 (addr val : Nat) (s : State) : State :=
  emit (.store8 addr (val % 256))
    { s with mem := fun a => if a = addr then val % 256 else s.mem a }

/-- Read through a `uint8_t *`. -/
def load8 (addr : Nat) (s : State) : State :=
  emit (.load8 addr) s

/-- Modelled from the spec: interrupt-controller `clear_pending(vector)`. -/
def NVIC_ClearPendingIRQ (irq : Nat) (s : State) : State :=
  emit (.NVIC_ClearPendingIRQ irq)
    { s with nvic_pending := fun i => if i = irq then false else s.nvic_pending i }

/-- Modelled from the spec: interrupt-controller `enable(vector)`. -/
def NVIC_EnableIRQ (irq : Nat) (s : State) : State :=
  emit (.NVIC_EnableIRQ irq)
    { s with nvic_enabled := fun i => if i = irq then true else s.nvic_enabled i }

/-- Modelled from the spec: interrupt-controller `disable(vector)`. -/
def NVIC_DisableIRQ (irq : Nat) (s : State) : State :=
  emit (.NVIC_DisableIRQ irq)
    { s with nvic_enabled := fun i => if i = irq then false else s.nvic_enabled i }

/-- Modelled from the spec: GPIO peripheral `write_bit(port, pin, level)` on the data
register. -/
def gpio_write_bit (port pin val : Nat) (s : State) : State :=
  emit (.gpio_write_bit port pin val)
    { s with gpio_data := fun p b => if p = port ∧ b = pin then val else s.gpio_data p b }

/-! ## Register Sequencer -/

/-- Channels for which `CG_SetSTBYReleaseINTSrc` selects a register field. -/
def supported (n : Nat) : Prop := n ≤ 18 ∨ n = 21

instance (n : Nat) : Decidable (supported n) := by
  unfold supported; infer_instance

/-- The two stores every branch of `CG_SetSTBYReleaseINTSrc` performs through `ptr`:
`*ptr = CLR_INT_FLAG; *ptr = (ActiveState | NewState);`. -/
def clear_then_set (ptr ActiveState NewState : Nat) (s : State) : State :=
  store8 ptr (ActiveState ||| NewState) (store8 ptr CLR_INT_FLAG s)

/-- The null pointer as a byte address. -/
def NULL : Nat := 0

/-- Source function `CG_SetSTBYReleaseINTSrc`. `ptr` starts as `NULL`; each branch of the
chain sets it and stores twice; the closing block loads `*ptr` into a local that is never
used, whether or not a branch was taken. The load changes nothing; when no branch was
taken it is a load from address 0, which the target maps to readable memory. -/
def CG_SetSTBYReleaseINTSrc (T : Target) (INTSource ActiveState NewState : Nat)
    (s : State) : Outcome Unit State :=
  let r : Nat × State :=
    if INTSource = 0 then
      let ptr := T.IMC .IMC033
      (ptr, clear_then_set ptr ActiveState NewState s)
    else if INTSource ≤ 8 then
      let ptr := T.IMC .IMC034 + (INTSource - 1) * 2
      (ptr, clear_then_set ptr ActiveState NewState s)
    else if INTSource ≤ 10 then
      let ptr := T.IMC .IMC050 + (INTSource - 9)
      (ptr, clear_then_set ptr ActiveState NewState s)
    else if INTSource = 11 then
      let ptr := T.IMC .IMC052
      (ptr, clear_then_set ptr ActiveState NewState s)
    else if INTSource ≤ 13 then
      let ptr := T.IMC .IMC054 + (INTSource - 12)
      (ptr, clear_then_set ptr ActiveState NewState s)
    else if INTSource = 14 then
      let ptr := T.IMC .IMC056
      (ptr, clear_then_set ptr ActiveState NewState s)
    else if INTSource = 15 then
      let ptr := T.IMC .IMC058
      (ptr, clear_then_set ptr ActiveState NewState s)
    else if INTSource ≤ 18 then
      let ptr := T.IMC .IMC059 + (INTSource - 16) * 2
      (ptr, clear_then_set ptr ActiveState NewState s)
    else if INTSource = 21 then
      let ptr := T.IMC .IMC069
      (ptr, clear_then_set ptr ActiveState NewState s)
    else
      (NULL, s)
  .ok () (load8 r.1 r.2)

/-- Address of the byte field of a channel: the pointer the branch of
`CG_SetSTBYReleaseINTSrc` for that channel computes (used to state properties). -/
def field_of (T : Target) (n : Nat) : Nat :=
  if n = 0 then T.IMC .IMC033
  else if n ≤ 8 then T.IMC .IMC034 + (n - 1) * 2
  else if n ≤ 10 then T.IMC .IMC050 + (n - 9)
  else if n = 11 then T.IMC .IMC052
  else if n ≤ 13 then T.IMC .IMC054 + (n - 12)
  else if n = 14 then T.IMC .IMC056
  else if n = 15 then T.IMC .IMC058
  else if n ≤ 18 then T.IMC .IMC059 + (n - 16) * 2
  else T.IMC .IMC069

/-! ## Channel Controller -/

/-- Source function `gpio_irq_enable`. -/
def gpio_irq_enable (obj : gpio_irq_t) (s : State) : State :=
  NVIC_EnableIRQ obj.irq_id (NVIC_ClearPendingIRQ obj.irq_id s)

/-- Source function `gpio_irq_disable`. -/
def gpio_irq_disable (obj : gpio_irq_t) (s : State) : State :=
  NVIC_DisableIRQ obj.irq_id s

/-- Store into `hal_irq_handler[index]`. -/
def set_handler (index : Nat) (h : Option Nat) (s : State) : State :=
  emit (.store_handler index h)
    { s with hal_irq_handler := fun i => if i = index then h else s.hal_irq_handler i }

/-- Store into `channel_ids[index]`. -/
def set_id (index : Nat) (id : Nat) (s : State) : State :=
  emit (.store_id index id)
    { s with channel_ids := fun i => if i = index then id else s.channel_ids i }

/-- Source function `gpio_irq_init`; the returned value is the `int` result. -/
def gpio_irq_init (T : Target) (obj : gpio_irq_t) (pin : PinName) (handler : Option Nat)
    (id : Nat) (s : State) : Outcome Nat (gpio_irq_t × State) :=
  match pinmap_peripheral pin PinMap_GPIO_IRQ with
  | none => .halt .fatal_error (obj, emit .error s)
  | some peripheral =>
    let obj := { obj with irq_id := peripheral }
    let s := emit .critical_section_enter s
    let obj := { obj with port := T.PIN_PORT pin }
    let obj := { obj with pin_num := T.PIN_POS pin }
    let s := gpio_write_bit obj.port obj.pin_num 0 s
    let s := emit (.pinmap_pinout pin) s
    let obj := { obj with irq_src := obj.irq_id }
    if obj.irq_src < CHANNEL_NUM then
      let s := set_handler obj.irq_src handler s
      let s := set_id obj.irq_src id s
      let obj := { obj with event := T.CG_INT_ACTIVE_STATE_BOTH_EDGES }
      let s := NVIC_ClearPendingIRQ obj.irq_id s
      match CG_SetSTBYReleaseINTSrc T obj.irq_src obj.event ENABLE s with
      | .halt why s => .halt why (obj, s)
      | .ok _ s =>
        let s := emit .critical_section_exit s
        .ok 0 (obj, s)
    else
      .halt .out_of_bounds (obj, s)

/-- Source function `gpio_irq_free`. -/
def gpio_irq_free (obj : gpio_irq_t) (s : State) : Outcome Unit (gpio_irq_t × State) :=
  let s := NVIC_ClearPendingIRQ obj.irq_id s
  if obj.irq_src < CHANNEL_NUM then
    let s := set_handler obj.irq_src none s
    let s := set_id obj.irq_src 0 s
    .ok () (obj, gpio_irq_disable obj s)
  else
    .halt .out_of_bounds (obj, s)

/-- The policy computed by the `if (enable) ... else ...` block of `gpio_irq_set`;
`none` is the `error("Not supported event\n")` branch. -/
def gpio_irq_set_event (T : Target) (cur : Nat) (event : gpio_irq_event) (enable : Nat) :
    Option Nat :=
  if enable ≠ 0 then
    if event = .IRQ_RISE then
      if cur = T.CG_INT_ACTIVE_STATE_FALLING ∨ cur = T.CG_INT_ACTIVE_STATE_BOTH_EDGES then
        some T.CG_INT_ACTIVE_STATE_BOTH_EDGES
      else
        some T.CG_INT_ACTIVE_STATE_RISING
    else if event = .IRQ_FALL then
      if cur = T.CG_INT_ACTIVE_STATE_RISING ∨ cur = T.CG_INT_ACTIVE_STATE_BOTH_EDGES then
        some T.CG_INT_ACTIVE_STATE_BOTH_EDGES
      else
        some T.CG_INT_ACTIVE_STATE_FALLING
    else
      none
  else
    if event = .IRQ_RISE then
      if cur = T.CG_INT_ACTIVE_STATE_RISING ∨ cur = T.CG_INT_ACTIVE_STATE_INVALID then
        some T.CG_INT_ACTIVE_STATE_BOTH_EDGES
      else
        some T.CG_INT_ACTIVE_STATE_FALLING
    else if event = .IRQ_FALL then
      if cur = T.CG_INT_ACTIVE_STATE_FALLING ∨ cur = T.CG_INT_ACTIVE_STATE_INVALID then
        some T.CG_INT_ACTIVE_STATE_BOTH_EDGES
      else
        some T.CG_INT_ACTIVE_STATE_RISING
    else
      none

/-- Modelled from the spec: the routine `error` of the HAL (`mbed_error.h`) is absent.
The spec: "Unsupported edge values fail with an InvalidArgument condition" and
"`UnsupportedEdge` (policy request outside {Rise, Fall} — fatal, aborts the call)". The
routine records the failure; the run of its caller stops at the call. -/
def error (s : State) : State :=
  emit .error s

/-- Source function `gpio_irq_set`. The routine `error` of the HAL is absent from the
source file; the spec has it "fatal, aborts the call", so the run stops there. -/
def gpio_irq_set (T : Target) (obj : gpio_irq_t) (event : gpio_irq_event) (enable : Nat)
    (s : State) : Outcome Unit (gpio_irq_t × State) :=
  let s := gpio_irq_disable obj s
  match gpio_irq_set_event T obj.event event enable with
  | none => .halt .fatal_error (obj, error s)
  | some e =>
    let obj := { obj with event := e }
    let s := emit (.store_CurrentState obj.event) { s with CurrentState := obj.event }
    let armed : Outcome Unit State :=
      if obj.event ≠ T.CG_INT_ACTIVE_STATE_INVALID then
        match CG_SetSTBYReleaseINTSrc T obj.irq_src obj.event ENABLE s with
        | .halt why s => .halt why s
        | .ok _ s => .ok () (gpio_write_bit obj.port obj.pin_num 0 s)
      else
        .ok () (gpio_write_bit obj.port obj.pin_num 1 s)
    match armed with
    | .halt why s => .halt why (obj, s)
    | .ok _ s =>
      let s := NVIC_ClearPendingIRQ obj.irq_id s
      .ok () (obj, gpio_irq_enable obj s)

/-! ## Dispatch Routine -/

/-- Modelled from the spec: the header declaring `CG_INTSrc` is absent; its first
enumerator is logical channel 0, so that `CG_INT_SRC_0 + index` is channel `index`. -/
def CG_INT_SRC_0 : Nat := 0

/-- The call `hal_irq_handler[index](channel_ids[index], event)`: the callback runs
outside this file and is recorded in the trace; a `NULL` entry cannot be called. -/
def call_handler (index : Nat) (event : gpio_irq_event) (s : State) : Outcome Unit State :=
  if index < CHANNEL_NUM then
    match s.hal_irq_handler index with
    | some h => .ok () (emit (.callback h (s.channel_ids index) event) s)
    | none => .halt .null_call s
  else
    .halt .out_of_bounds s

/-- Source function `INT_IRQHandler`. `data` is the value of the local `data` after
the call of `gpio_read_bit`, that is the sampled pin level. -/
def INT_IRQHandler (T : Target) (pin : PinName) (index : Nat) (data : Nat) (s : State) :
    Outcome Unit State :=
  let pin_num := T.PIN_POS pin
  let port := T.PIN_PORT pin
  match CG_SetSTBYReleaseINTSrc T (CG_INT_SRC_0 + index) s.CurrentState DISABLE s with
  | .halt why s => .halt why s
  | .ok _ s =>
    let s := emit (.gpio_read_bit port pin_num) s
    let called : Outcome Unit State :=
      if data = 0 then call_handler index .IRQ_FALL s
      else if data = 1 then call_handler index .IRQ_RISE s
      else .ok () s
    match called with
    | .halt why s => .halt why s
    | .ok _ s =>
      let s := NVIC_ClearPendingIRQ (CG_INT_SRC_0 + index) s
      CG_SetSTBYReleaseINTSrc T (CG_INT_SRC_0 + index) s.CurrentState ENABLE s

/-- Source function `INT00_IRQHandler`. -/
def INT00_IRQHandler (T : Target) (data : Nat) (s : State) : Outcome Unit State :=
  INT_IRQHandler T .PA2 0 data s

/-- Source function `INT01_IRQHandler`. -/
def INT01_IRQHandler (T : Target) (data : Nat) (s : State) : Outcome Unit State :=
  INT_IRQHandler T .PA4 1 data s

/-- Source function `INT03_IRQHandler`. -/
def INT03_IRQHandler (T : Target) (data : Nat) (s : State) : Outcome Unit State :=
  INT_IRQHandler T .PC3 3 data s

/-- Source function `INT04_IRQHandler`. -/
def INT04_IRQHandler (T : Target) (data : Nat) (s : State) : Outcome Unit State :=
  INT_IRQHandler T .PE3 4 data s

/-- Source function `INT05_IRQHandler`. -/
def INT05_IRQHandler (T : Target) (data : Nat) (s : State) : Outcome Unit State :=
  INT_IRQHandler T .PE5 5 data s

/-- Source function `INT07_IRQHandler`. -/
def INT07_IRQHandler (T : Target) (data : Nat) (s : State) : Outcome Unit State :=
  INT_IRQHandler T .PU1 7 data s

/-- Source function `INT08_IRQHandler`. -/
def INT08_IRQHandler (T : Target) (data : Nat) (s : State) : Outcome Unit State :=
  INT_IRQHandler T .PU3 8 data s

/-- Source function `INT09_IRQHandler`. -/
def INT09_IRQHandler (T : Target) (data : Nat) (s : State) : Outcome Unit State :=
  INT_IRQHandler T .PU6 9 data s

/-- Source function `INT10_IRQHandler`. -/
def INT10_IRQHandler (T : Target) (data : Nat) (s : State) : Outcome Unit State :=
  INT_IRQHandler T .PC2 10 data s

/-- Source function `INT11_IRQHandler`. -/
def INT11_IRQHandler (T : Target) (data : Nat) (s : State) : Outcome Unit State :=
  INT_IRQHandler T .PE4 11 data s

/-- Source function `INT12_IRQHandler`. -/
def INT12_IRQHandler (T : Target) (data : Nat) (s : State) : Outcome Unit State :=
  INT_IRQHandler T .PU0 12 data s

/-- Source function `INT13_IRQHandler`. -/
def INT13_IRQHandler (T : Target) (data : Nat) (s : State) : Outcome Unit State :=
  INT_IRQHandler T .PU5 13 data s

/-- Source function `INT15_IRQHandler`. -/
def INT15_IRQHandler (T : Target) (data : Nat) (s : State) : Outcome Unit State :=
  INT_IRQHandler T .PA1 15 data s

/-- Source function `INT16_IRQHandler`. -/
def INT16_IRQHandler (T : Target) (data : Nat) (s : State) : Outcome Unit State :=
  INT_IRQHandler T .PN1 16 data s

/-- Source function `INT17_IRQHandler`. -/
def INT17_IRQHandler (T : Target) (data : Nat) (s : State) : Outcome Unit State :=
  INT_IRQHandler T .PD1 17 data s

/-- Source function `INT18_IRQHandler`. -/
def INT18_IRQHandler (T : Target) (data : Nat) (s : State) : Outcome Unit State :=
  INT_IRQHandler T .PD5 18 data s

/-- Source function `INT21_IRQHandler`. -/
def INT21_IRQHandler (T : Target) (data : Nat) (s : State) : Outcome Unit State :=
  INT_IRQHandler T .PG3 21 data s

/-- The scenario "bind handler `H` with user id 42 to channel 0, then dispatch channel 0
on sampled level `data`": `gpio_irq_init` on pin PA2 followed by `INT00_IRQHandler`. -/
def init_then_dispatch (T : Target) (obj : gpio_irq_t) (H data : Nat) (s : State) :
    Outcome Unit (gpio_irq_t × State) :=
  match gpio_irq_init T obj .PA2 (some H) 42 s with
  | .halt why c => .halt why c
  | .ok _ c =>
    match INT00_IRQHandler T data c.2 with
    | .halt why s => .halt why (c.1, s)
    | .ok _ s => .ok () (c.1, s)

/-! ## Reading results -/

/-- Callbacks of a trace, in order. -/
def callbacks : List Effect → List (Nat × Nat × gpio_irq_event)
  | [] => []
  | .callback h id ev :: rest => (h, id, ev) :: callbacks rest
  | _ :: rest => callbacks rest

/-- Register stores of a trace, in order, as (address, byte). -/
def stores : List Effect → List (Nat × Nat)
  | [] => []
  | .store8 a v :: rest => (a, v) :: stores rest
  | _ :: rest => stores rest

/-- State in which a run ended, returned or halted. -/
def Outcome.state {α σ : Type} : Outcome α σ → σ
  | .ok _ s => s
  | .halt _ s => s

/-- Whether the run returned. -/
def Outcome.returned {α σ : Type} : Outcome α σ → Bool
  | .ok _ _ => true
  | .halt _ _ => false

/-- Running `f` after a run that returned; a halted run stays halted. -/
def Outcome.andThen {α β σ : Type} (r : Outcome α σ) (f : σ → Outcome β σ) : Outcome β σ :=
  match r with
  | .ok _ s => f s
  | .halt why s => .halt why s

/-- Return value of a run that returned. -/
def Outcome.ret {α σ : Type} : Outcome α σ → Option α
  | .ok r _ => some r
  | .halt _ _ => none

/-! ## Intermediate states of the runs -/

/-- State after the first half of a dispatch: channel disarmed, pin sampled. -/
def disarmed (T : Target) (pin : PinName) (index : Nat) (s : State) : State :=
  emit (.gpio_read_bit (T.PIN_PORT pin) (T.PIN_POS pin))
    (load8 (field_of T index) (clear_then_set (field_of T index) s.CurrentState DISABLE s))

/-- State after the second half of a dispatch: pending flag cleared, channel re-armed. -/
def rearmed (T : Target) (index : Nat) (s : State) : State :=
  load8 (field_of T index)
    (clear_then_set (field_of T index) s.CurrentState ENABLE (NVIC_ClearPendingIRQ index s))

/-- Object that `gpio_irq_init` leaves for a pin mapped to channel `ch`. -/
def init_obj (T : Target) (pin : PinName) (ch : Nat) : gpio_irq_t :=
  ⟨ch, T.PIN_PORT pin, T.PIN_POS pin, ch, T.CG_INT_ACTIVE_STATE_BOTH_EDGES⟩

/-- State that `gpio_irq_init` leaves for a pin mapped to channel `ch`. -/
def init_state (T : Target) (pin : PinName) (ch : Nat) (handler : Option Nat) (id : Nat)
    (s : State) : State :=
  emit .critical_section_exit
    (load8 (field_of T ch)
      (clear_then_set (field_of T ch) T.CG_INT_ACTIVE_STATE_BOTH_EDGES ENABLE
        (NVIC_ClearPendingIRQ ch
          (set_id ch id
            (set_handler ch handler
              (emit (.pinmap_pinout pin)
                (gpio_write_bit (T.PIN_PORT pin) (T.PIN_POS pin) 0
                  (emit .critical_section_enter s))))))))

/-- State in which `gpio_irq_set` returns when the policy `p` it computed is not
`CG_INT_ACTIVE_STATE_INVALID` and the channel of `obj` is served. -/
def armed_state (T : Target) (obj : gpio_irq_t) (p : Nat) (s : State) : State :=
  gpio_irq_enable obj
    (NVIC_ClearPendingIRQ obj.irq_id
      (gpio_write_bit obj.port obj.pin_num 0
        (load8 (field_of T obj.irq_src)
          (clear_then_set (field_of T obj.irq_src) p ENABLE
            (emit (.store_CurrentState p)
              { gpio_irq_disable obj s with CurrentState := p })))))

/-! ## Vector bindings -/

/-- One interrupt vector of the source file: the number `nn` of its name
`INTnn_IRQHandler`, the pin and the index it passes to `INT_IRQHandler`, and the
function itself. -/
structure VectorBinding where
  number : Nat
  pin : PinName
  index : Nat
  run : Target → Nat → State → Outcome Unit State

/-- The vectors the source file defines, in source order. -/
def vectors : List VectorBinding :=
  [
    ⟨0, .PA2, 0, INT00_IRQHandler⟩,
    ⟨1, .PA4, 1, INT01_IRQHandler⟩,
    ⟨3, .PC3, 3, INT03_IRQHandler⟩,
    ⟨4, .PE3, 4, INT04_IRQHandler⟩,
    ⟨5, .PE5, 5, INT05_IRQHandler⟩,
    ⟨7, .PU1, 7, INT07_IRQHandler⟩,
    ⟨8, .PU3, 8, INT08_IRQHandler⟩,
    ⟨9, .PU6, 9, INT09_IRQHandler⟩,
    ⟨10, .PC2, 10, INT10_IRQHandler⟩,
    ⟨11, .PE4, 11, INT11_IRQHandler⟩,
    ⟨12, .PU0, 12, INT12_IRQHandler⟩,
    ⟨13, .PU5, 13, INT13_IRQHandler⟩,
    ⟨15, .PA1, 15, INT15_IRQHandler⟩,
    ⟨16, .PN1, 16, INT16_IRQHandler⟩,
    ⟨17, .PD1, 17, INT17_IRQHandler⟩,
    ⟨18, .PD5, 18, INT18_IRQHandler⟩,
    ⟨21, .PG3, 21, INT21_IRQHandler⟩ ]

/-! ## Critical sections in an effect trace -/

/-- Effects that write the channel table, the interrupt controller or a control
register. -/
def is_guarded_write : Effect → Bool
  | .store_handler _ _ => true
  | .store_id _ _ => true
  | .NVIC_ClearPendingIRQ _ => true
  | .NVIC_EnableIRQ _ => true
  | .NVIC_DisableIRQ _ => true
  | .store8 _ _ => true
  | _ => false

/-- Whether, in a trace read from nesting depth `depth`, every guarded write occurs
inside a critical section (depth above 0), no exit occurs without an enter before it,
and the trace ends at depth 0 (enters and exits balanced). -/
def in_critical (depth : Nat) : List Effect → Bool
  | [] => depth == 0
  | .critical_section_enter :: rest => in_critical (depth + 1) rest
  | .critical_section_exit :: rest => decide (0 < depth) && in_critical (depth - 1) rest
  | e :: rest => (!is_guarded_write e || decide (0 < depth)) && in_critical depth rest

/-- Effects a run added to the trace it started with. -/
def added (before : State) (after : State) : List Effect :=
  after.trace.drop before.trace.length

/-! ## Sequences of calls of the public API -/

/-- A call of `gpio_irq_init` or `gpio_irq_set` on one object. -/
inductive ApiCall where
  | init (pin : PinName) (handler : Option Nat) (id : Nat)
  | set (event : gpio_irq_event) (enable : Nat)

/-- One call on the object and state `c`. -/
def run_call (T : Target) (a : ApiCall) (c : gpio_irq_t × State) :
    Outcome Unit (gpio_irq_t × State) :=
  match a with
  | .init pin handler id =>
    match gpio_irq_init T c.1 pin handler id c.2 with
    | .ok _ c1 => .ok () c1
    | .halt why c1 => .halt why c1
  | .set event enable => gpio_irq_set T c.1 event enable c.2

/-- The calls of a list one after the other; a halted run stays halted. -/
def run_calls (T : Target) : List ApiCall → gpio_irq_t × State →
    Outcome Unit (gpio_irq_t × State)
  | [], c => .ok () c
  | a :: rest, c =>
    match run_call T a c with
    | .ok _ c1 => run_calls T rest c1
    | .halt why c1 => .halt why c1

/-- The policy with RISING and FALLING exchanged; every other value is kept. -/
def swap (T : Target) (p : Nat) : Nat :=
  if p = T.CG_INT_ACTIVE_STATE_RISING then T.CG_INT_ACTIVE_STATE_FALLING
  else if p = T.CG_INT_ACTIVE_STATE_FALLING then T.CG_INT_ACTIVE_STATE_RISING
  else p

/-- The edge argument with IRQ_RISE and IRQ_FALL exchanged. -/
def swapE : gpio_irq_event → gpio_irq_event
  | .IRQ_RISE => .IRQ_FALL
  | .IRQ_FALL => .IRQ_RISE
  | .IRQ_NONE => .IRQ_NONE

/-- A policy with at least one edge on: RISING, FALLING or BOTH_EDGES. -/
def edge_on (T : Target) (p : Nat) : Prop :=
  p = T.CG_INT_ACTIVE_STATE_RISING ∨ p = T.CG_INT_ACTIVE_STATE_FALLING ∨
    p = T.CG_INT_ACTIVE_STATE_BOTH_EDGES

instance (T : Target) (p : Nat) : Decidable (edge_on T p) := by
  unfold edge_on; infer_instance

/-! ## Sample inputs -/

/-- Hardware state with every register, flag and data bit zero and an empty trace. -/
def zeroState : State where
  channel_ids := fun _ => 0
  hal_irq_handler := fun _ => none
  CurrentState := 0
  mem := fun _ => 0
  nvic_enabled := fun _ => false
  nvic_pending := fun _ => false
  gpio_data := fun _ _ => 0
  trace := []

/-- An object of pin PA2 (channel 0) whose policy is `CG_INT_ACTIVE_STATE_INVALID` of
`sampleTarget`. -/
def objPA2 : gpio_irq_t := ⟨0, 0, 2, 0, 0x0A⟩

/-- A state in which handler 7 with user id 42 is registered on channel 0 and the
global policy mirror is `CG_INT_ACTIVE_STATE_INVALID` of `sampleTarget`. -/
def parkedState : State :=
  { zeroState with
    hal_irq_handler := fun i => if i = 0 then some 7 else none
    channel_ids := fun i => if i = 0 then 42 else 0
    CurrentState := 0x0A }

/-- An object of pin PA4 (channel 1) whose policy is `CG_INT_ACTIVE_STATE_FALLING` of
`sampleTarget`. -/
def objPA4 : gpio_irq_t := ⟨1, 0, 4, 1, 0x04⟩

theorem added_append (s : State) (t : State) (l : List Effect)
    (h : t.trace = s.trace ++ l) : added s t = l := by
  unfold added
  rw [h]
  exact List.drop_left s.trace l

theorem CG_SetSTBYReleaseINTSrc_supported (T : Target) (n a e : Nat) (s : State)
    (h : supported n) :
    CG_SetSTBYReleaseINTSrc T n a e s
      = .ok () (load8 (field_of T n) (clear_then_set (field_of T n) a e s)) := by
  unfold supported at h
  unfold CG_SetSTBYReleaseINTSrc field_of
  split_ifs <;> first | rfl | omega

theorem CG_SetSTBYReleaseINTSrc_unsupported (T : Target) (n a e : Nat) (s : State)
    (h : ¬ supported n) :
    CG_SetSTBYReleaseINTSrc T n a e s = .ok () (load8 NULL s) := by
  unfold supported at h
  unfold CG_SetSTBYReleaseINTSrc
  split_ifs <;> first | rfl | omega

/-! ## Lemmas on `gpio_irq_set` -/

theorem gpio_irq_set_returns (T : Target) (obj : gpio_irq_t) (ev : gpio_irq_event)
    (en e : Nat) (s : State) (h : supported obj.irq_src)
    (he : gpio_irq_set_event T obj.event ev en = some e) :
    ∃ s1, gpio_irq_set T obj ev en s = .ok () ({ obj with event := e }, s1) := by
  unfold gpio_irq_set
  simp only [he]
  by_cases hp : e = T.CG_INT_ACTIVE_STATE_INVALID
  · simp [hp]
  · simp [hp, CG_SetSTBYReleaseINTSrc_supported T obj.irq_src _ _ _ h]

theorem gpio_irq_set_event_rise_on (T : Target) (cur : Nat) :
    gpio_irq_set_event T cur .IRQ_RISE 1 =
      some (if cur = T.CG_INT_ACTIVE_STATE_FALLING ∨ cur = T.CG_INT_ACTIVE_STATE_BOTH_EDGES
        then T.CG_INT_ACTIVE_STATE_BOTH_EDGES else T.CG_INT_ACTIVE_STATE_RISING) := by
  unfold gpio_irq_set_event
  split_ifs <;> simp_all

theorem gpio_irq_set_event_fall_on (T : Target) (cur : Nat) :
    gpio_irq_set_event T cur .IRQ_FALL 1 =
      some (if cur = T.CG_INT_ACTIVE_STATE_RISING ∨ cur = T.CG_INT_ACTIVE_STATE_BOTH_EDGES
        then T.CG_INT_ACTIVE_STATE_BOTH_EDGES else T.CG_INT_ACTIVE_STATE_FALLING) := by
  unfold gpio_irq_set_event
  split_ifs <;> simp_all

theorem gpio_irq_set_event_rise_off (T : Target) (cur : Nat) :
    gpio_irq_set_event T cur .IRQ_RISE 0 =
      some (if cur = T.CG_INT_ACTIVE_STATE_RISING ∨ cur = T.CG_INT_ACTIVE_STATE_INVALID
        then T.CG_INT_ACTIVE_STATE_BOTH_EDGES else T.CG_INT_ACTIVE_STATE_FALLING) := by
  unfold gpio_irq_set_event
  split_ifs <;> simp_all

/-- Two calls of `gpio_irq_set` in a row on the same object: both return and the
object ends with the policy the second transition computes from the first one's. -/
theorem gpio_irq_set_twice (T : Target) (obj : gpio_irq_t) (ev1 ev2 : gpio_irq_event)
    (en1 en2 e1 e2 : Nat) (s : State) (h : supported obj.irq_src)
    (he1 : gpio_irq_set_event T obj.event ev1 en1 = some e1)
    (he2 : gpio_irq_set_event T e1 ev2 en2 = some e2) :
    ((gpio_irq_set T obj ev1 en1 s).andThen
        (fun c => gpio_irq_set T c.1 ev2 en2 c.2)).returned = true ∧
    ((gpio_irq_set T obj ev1 en1 s).andThen
        (fun c => gpio_irq_set T c.1 ev2 en2 c.2)).state.1.event = e2 := by
  obtain ⟨s1, h1⟩ := gpio_irq_set_returns T obj ev1 en1 e1 s h he1
  obtain ⟨s2, h2⟩ := gpio_irq_set_returns T { obj with event := e1 } ev2 en2 e2 s1 h he2
  rw [h1]
  simp only [Outcome.andThen]
  rw [h2]
  simp [Outcome.returned, Outcome.state]

/-! ## C1 -/

/-- C1: for every starting edge policy of a pin interrupt object (its channel being one
the Register Sequencer serves), `gpio_irq_set(obj, IRQ_RISE, 1)` followed by
`gpio_irq_set(obj, IRQ_FALL, 1)` returns and leaves `obj->event` equal to
`CG_INT_ACTIVE_STATE_BOTH_EDGES`, and so do the two calls in the opposite order. -/
theorem gpio_irq_set_rise_fall_both (T : Target) (obj : gpio_irq_t) (s : State)
    (h : supported obj.irq_src) :
    (((gpio_irq_set T obj .IRQ_RISE 1 s).andThen
        (fun c => gpio_irq_set T c.1 .IRQ_FALL 1 c.2)).returned = true ∧
      ((gpio_irq_set T obj .IRQ_RISE 1 s).andThen
        (fun c => gpio_irq_set T c.1 .IRQ_FALL 1 c.2)).state.1.event
        = T.CG_INT_ACTIVE_STATE_BOTH_EDGES) ∧
    (((gpio_irq_set T obj .IRQ_FALL 1 s).andThen
        (fun c => gpio_irq_set T c.1 .IRQ_RISE 1 c.2)).returned = true ∧
      ((gpio_irq_set T obj .IRQ_FALL 1 s).andThen
        (fun c => gpio_irq_set T c.1 .IRQ_RISE 1 c.2)).state.1.event
        = T.CG_INT_ACTIVE_STATE_BOTH_EDGES) := by
  constructor
  · apply gpio_irq_set_twice T obj .IRQ_RISE .IRQ_FALL 1 1 _ _ s h
      (gpio_irq_set_event_rise_on T obj.event)
    rw [gpio_irq_set_event_fall_on]
    split_ifs <;> simp_all
  · apply gpio_irq_set_twice T obj .IRQ_FALL .IRQ_RISE 1 1 _ _ s h
      (gpio_irq_set_event_fall_on T obj.event)
    rw [gpio_irq_set_event_rise_on]
    split_ifs <;> simp_all

/-- Witness of C1 on `sampleTarget`, object `objPA2`, state `zeroState`. -/
theorem gpio_irq_set_rise_fall_both_witness :
    supported objPA2.irq_src ∧
    ((gpio_irq_set sampleTarget objPA2 .IRQ_RISE 1 zeroState).andThen
        (fun c => gpio_irq_set sampleTarget c.1 .IRQ_FALL 1 c.2)).state.1.event
        = sampleTarget.CG_INT_ACTIVE_STATE_BOTH_EDGES :=
  ⟨by decide, (gpio_irq_set_rise_fall_both sampleTarget objPA2 zeroState (by decide)).1.2⟩

/-! ## C2 -/

/-- C2 (what the code does): for an object whose policy is `CG_INT_ACTIVE_STATE_INVALID`,
`gpio_irq_set(obj, IRQ_RISE, 1)` followed by `gpio_irq_set(obj, IRQ_RISE, 0)` returns and
leaves `obj->event` equal to `CG_INT_ACTIVE_STATE_BOTH_EDGES`, which is not
`CG_INT_ACTIVE_STATE_INVALID`: the disabling branch stores BOTH_EDGES where the policy is
RISING. -/
theorem gpio_irq_set_rise_on_off_from_invalid (T : Target) (obj : gpio_irq_t) (s : State)
    (hd : T.distinct) (h : supported obj.irq_src)
    (hinv : obj.event = T.CG_INT_ACTIVE_STATE_INVALID) :
    ((gpio_irq_set T obj .IRQ_RISE 1 s).andThen
        (fun c => gpio_irq_set T c.1 .IRQ_RISE 0 c.2)).returned = true ∧
    ((gpio_irq_set T obj .IRQ_RISE 1 s).andThen
        (fun c => gpio_irq_set T c.1 .IRQ_RISE 0 c.2)).state.1.event
        = T.CG_INT_ACTIVE_STATE_BOTH_EDGES ∧
    ((gpio_irq_set T obj .IRQ_RISE 1 s).andThen
        (fun c => gpio_irq_set T c.1 .IRQ_RISE 0 c.2)).state.1.event
        ≠ T.CG_INT_ACTIVE_STATE_INVALID := by
  obtain ⟨h1, h2, h3, h4, h5, h6⟩ := hd
  have key := gpio_irq_set_twice T obj .IRQ_RISE .IRQ_RISE 1 0
    T.CG_INT_ACTIVE_STATE_RISING T.CG_INT_ACTIVE_STATE_BOTH_EDGES s h
    (by rw [gpio_irq_set_event_rise_on, hinv, if_neg (by simp [h2, h3])])
    (by rw [gpio_irq_set_event_rise_off, if_pos (Or.inl rfl)])
  refine ⟨key.1, key.2, ?_⟩
  rw [key.2]
  exact fun hc => h3 hc.symm

/-- Witness of C2 on `sampleTarget`: the object `objPA2` ends with policy 0x08
(BOTH_EDGES), not 0x0A (INVALID). -/
theorem gpio_irq_set_rise_on_off_from_invalid_witness :
    sampleTarget.distinct ∧ supported objPA2.irq_src ∧
    objPA2.event = sampleTarget.CG_INT_ACTIVE_STATE_INVALID ∧
    ((gpio_irq_set sampleTarget objPA2 .IRQ_RISE 1 zeroState).andThen
        (fun c => gpio_irq_set sampleTarget c.1 .IRQ_RISE 0 c.2)).state.1.event = 0x08 :=
  ⟨by decide, by decide, by decide,
    (gpio_irq_set_rise_on_off_from_invalid sampleTarget objPA2 zeroState
      (by decide) (by decide) (by decide)).2.1⟩

/-! ## Lemmas on the Dispatch Routine -/

theorem callbacks_append (l1 l2 : List Effect) :
    callbacks (l1 ++ l2) = callbacks l1 ++ callbacks l2 := by
  induction l1 with
  | nil => rfl
  | cons e rest ih => cases e <;> simp [callbacks, ih]

theorem stores_append (l1 l2 : List Effect) :
    stores (l1 ++ l2) = stores l1 ++ stores l2 := by
  induction l1 with
  | nil => rfl
  | cons e rest ih => cases e <;> simp [stores, ih]

/-- A dispatch of a served channel on a sampled value other than 0 and 1. -/
theorem INT_IRQHandler_other (T : Target) (pin : PinName) (index data : Nat) (s : State)
    (h : supported index) (h0 : data ≠ 0) (h1 : data ≠ 1) :
    INT_IRQHandler T pin index data s = .ok () (rearmed T index (disarmed T pin index s)) := by
  unfold INT_IRQHandler
  simp only [CG_INT_SRC_0, Nat.zero_add, CG_SetSTBYReleaseINTSrc_supported T index _ _ _ h,
    if_neg h0, if_neg h1]
  rfl

/-- A dispatch of a served channel with a registered handler on level 0 or 1. -/
theorem INT_IRQHandler_level (T : Target) (pin : PinName) (index data f : Nat) (s : State)
    (h : supported index) (hd : data = 0 ∨ data = 1) (hf : s.hal_irq_handler index = some f) :
    INT_IRQHandler T pin index data s
      = .ok () (rearmed T index
          (emit (.callback f (s.channel_ids index)
              (if data = 0 then .IRQ_FALL else .IRQ_RISE)) (disarmed T pin index s))) := by
  have hlt : index < CHANNEL_NUM := by
    unfold supported at h; unfold CHANNEL_NUM; omega
  have hf1 : (disarmed T pin index s).hal_irq_handler index = some f := hf
  unfold INT_IRQHandler
  simp only [CG_INT_SRC_0, Nat.zero_add, CG_SetSTBYReleaseINTSrc_supported T index _ _ _ h]
  rcases hd with hd | hd
  · subst hd
    simp only [if_true, call_handler, if_pos hlt]
    change (match (match (disarmed T pin index s).hal_irq_handler index with
        | some h => Outcome.ok () (emit (.callback h ((disarmed T pin index s).channel_ids index)
            .IRQ_FALL) (disarmed T pin index s))
        | none => Outcome.halt .null_call (disarmed T pin index s)) with
      | .halt why s => Outcome.halt why s
      | .ok _ s => _) = _
    rw [hf1]
    rfl
  · subst hd
    simp only [if_neg (by decide : ¬ (1 = 0)), if_true, call_handler, if_pos hlt]
    change (match (match (disarmed T pin index s).hal_irq_handler index with
        | some h => Outcome.ok () (emit (.callback h ((disarmed T pin index s).channel_ids index)
            .IRQ_RISE) (disarmed T pin index s))
        | none => Outcome.halt .null_call (disarmed T pin index s)) with
      | .halt why s => Outcome.halt why s
      | .ok _ s => _) = _
    rw [hf1]
    rfl

/-- A dispatch of a served channel without handler on level 0 or 1 stops at the call. -/
theorem INT_IRQHandler_null (T : Target) (pin : PinName) (index data : Nat) (s : State)
    (h : supported index) (hd : data = 0 ∨ data = 1) (hf : s.hal_irq_handler index = none) :
    INT_IRQHandler T pin index data s = .halt .null_call (disarmed T pin index s) := by
  have hlt : index < CHANNEL_NUM := by
    unfold supported at h; unfold CHANNEL_NUM; omega
  have hf1 : (disarmed T pin index s).hal_irq_handler index = none := hf
  unfold INT_IRQHandler
  simp only [CG_INT_SRC_0, Nat.zero_add, CG_SetSTBYReleaseINTSrc_supported T index _ _ _ h]
  rcases hd with hd | hd
  · subst hd
    simp only [if_true, call_handler, if_pos hlt]
    change (match (match (disarmed T pin index s).hal_irq_handler index with
        | some h => Outcome.ok () (emit (.callback h ((disarmed T pin index s).channel_ids index)
            .IRQ_FALL) (disarmed T pin index s))
        | none => Outcome.halt .null_call (disarmed T pin index s)) with
      | .halt why s => Outcome.halt why s
      | .ok _ s => _) = _
    rw [hf1]
  · subst hd
    simp only [if_neg (by decide : ¬ (1 = 0)), if_true, call_handler, if_pos hlt]
    change (match (match (disarmed T pin index s).hal_irq_handler index with
        | some h => Outcome.ok () (emit (.callback h ((disarmed T pin index s).channel_ids index)
            .IRQ_RISE) (disarmed T pin index s))
        | none => Outcome.halt .null_call (disarmed T pin index s)) with
      | .halt why s => Outcome.halt why s
      | .ok _ s => _) = _
    rw [hf1]

theorem callbacks_disarmed (T : Target) (pin : PinName) (index : Nat) (s : State) :
    callbacks (disarmed T pin index s).trace = callbacks s.trace := by
  simp [disarmed, emit, load8, clear_then_set, store8, callbacks_append, callbacks]

theorem callbacks_rearmed (T : Target) (index : Nat) (s : State) :
    callbacks (rearmed T index s).trace = callbacks s.trace := by
  simp [rearmed, emit, load8, clear_then_set, store8, NVIC_ClearPendingIRQ,
    callbacks_append, callbacks]

theorem mem_rearmed (T : Target) (index : Nat) (s : State) :
    (rearmed T index s).mem (field_of T index) = (s.CurrentState ||| ENABLE) % 256 := by
  simp [rearmed, emit, load8, clear_then_set, store8, NVIC_ClearPendingIRQ]

theorem pending_rearmed (T : Target) (index : Nat) (s : State) :
    (rearmed T index s).nvic_pending index = false := by
  simp [rearmed, emit, load8, clear_then_set, store8, NVIC_ClearPendingIRQ]

theorem mem_disarmed (T : Target) (pin : PinName) (index : Nat) (s : State) :
    (disarmed T pin index s).mem (field_of T index) = (s.CurrentState ||| DISABLE) % 256 := by
  simp [disarmed, emit, load8, clear_then_set, store8]

/-! ## C3 -/

/-- C3: for every served channel with a registered handler `f` and stored user id `u`,
one run of `INT_IRQHandler` returns and adds to the callbacks made so far exactly
`f(u, IRQ_FALL)` when the sampled level is 0, exactly `f(u, IRQ_RISE)` when it is 1, and
nothing for any other sampled value; so at most one callback is made per dispatch. -/
theorem INT_IRQHandler_callback_once (T : Target) (pin : PinName) (index data f u : Nat)
    (s : State) (h : supported index) (hf : s.hal_irq_handler index = some f)
    (hu : s.channel_ids index = u) :
    (INT_IRQHandler T pin index data s).returned = true ∧
    callbacks (INT_IRQHandler T pin index data s).state.trace
      = callbacks s.trace ++
          (if data = 0 then [(f, u, gpio_irq_event.IRQ_FALL)]
           else if data = 1 then [(f, u, gpio_irq_event.IRQ_RISE)] else []) ∧
    (callbacks (INT_IRQHandler T pin index data s).state.trace).length
      ≤ (callbacks s.trace).length + 1 := by
  by_cases hd : data = 0 ∨ data = 1
  · rw [INT_IRQHandler_level T pin index data f s h hd hf]
    simp only [Outcome.returned, Outcome.state, callbacks_rearmed, emit, callbacks_append,
      callbacks_disarmed, hu, callbacks, true_and]
    rcases hd with hd | hd <;> subst hd <;> simp
  · have h0 : data ≠ 0 := fun hc => hd (Or.inl hc)
    have h1 : data ≠ 1 := fun hc => hd (Or.inr hc)
    rw [INT_IRQHandler_other T pin index data s h h0 h1]
    simp [Outcome.returned, Outcome.state, callbacks_rearmed, callbacks_disarmed, h0, h1]

/-- Witness of C3: channel 0 of `parkedState` holds handler 7 with user id 42; a
dispatch on level 0 adds the single callback 7(42, IRQ_FALL). -/
theorem INT_IRQHandler_callback_once_witness :
    supported 0 ∧ parkedState.hal_irq_handler 0 = some 7 ∧ parkedState.channel_ids 0 = 42 ∧
    callbacks (INT_IRQHandler sampleTarget .PA2 0 0 parkedState).state.trace
      = callbacks parkedState.trace ++
          (if 0 = 0 then [(7, 42, gpio_irq_event.IRQ_FALL)]
           else if 0 = 1 then [(7, 42, gpio_irq_event.IRQ_RISE)] else []) :=
  ⟨by decide, rfl, rfl,
    (INT_IRQHandler_callback_once sampleTarget .PA2 0 0 7 42 parkedState
      (by decide) rfl rfl).2.1⟩

/-! ## C4 -/

/-- C4 as stated fails: channel 0 of `zeroState` has no handler, and the dispatch
`INT00_IRQHandler` on sampled level 0 does not return: it stops at the call through the
`NULL` entry of `hal_irq_handler`. -/
theorem INT_IRQHandler_no_handler_level0_stops :
    zeroState.hal_irq_handler 0 = none ∧
    INT00_IRQHandler sampleTarget 0 zeroState
      = .halt .null_call (disarmed sampleTarget .PA2 0 zeroState) ∧
    ¬ ((INT00_IRQHandler sampleTarget 0 zeroState).returned = true) := by
  refine ⟨rfl, ?_, ?_⟩
  · exact INT_IRQHandler_null sampleTarget .PA2 0 0 zeroState (by decide) (Or.inl rfl) rfl
  · unfold INT00_IRQHandler
    rw [INT_IRQHandler_null sampleTarget .PA2 0 0 zeroState (by decide) (Or.inl rfl) rfl]
    simp [Outcome.returned]

/-- C4 (amended): for every served channel with no handler registered, a run of
`INT_IRQHandler` makes no callback for any sampled value; for a sampled value other than
0 and 1 it returns with the pending flag cleared and the channel re-armed (its field
holds CurrentState | ENABLE); for level 0 or 1 it does not return: it stops at the call
through the `NULL` table entry, the channel left disarmed. -/
theorem INT_IRQHandler_no_handler (T : Target) (pin : PinName) (index data : Nat)
    (s : State) (h : supported index) (hf : s.hal_irq_handler index = none) :
    callbacks (INT_IRQHandler T pin index data s).state.trace = callbacks s.trace ∧
    (data ≠ 0 → data ≠ 1 →
      (INT_IRQHandler T pin index data s).returned = true ∧
      (INT_IRQHandler T pin index data s).state.nvic_pending index = false ∧
      (INT_IRQHandler T pin index data s).state.mem (field_of T index)
        = (s.CurrentState ||| ENABLE) % 256) ∧
    (data = 0 ∨ data = 1 →
      (INT_IRQHandler T pin index data s).returned = false ∧
      INT_IRQHandler T pin index data s = .halt .null_call (disarmed T pin index s) ∧
      (INT_IRQHandler T pin index data s).state.mem (field_of T index)
        = (s.CurrentState ||| DISABLE) % 256) := by
  refine ⟨?_, ?_, ?_⟩
  · by_cases hd : data = 0 ∨ data = 1
    · rw [INT_IRQHandler_null T pin index data s h hd hf]
      simp [Outcome.state, callbacks_disarmed]
    · have h0 : data ≠ 0 := fun hc => hd (Or.inl hc)
      have h1 : data ≠ 1 := fun hc => hd (Or.inr hc)
      rw [INT_IRQHandler_other T pin index data s h h0 h1]
      simp [Outcome.state, callbacks_rearmed, callbacks_disarmed]
  · intro h0 h1
    rw [INT_IRQHandler_other T pin index data s h h0 h1]
    refine ⟨rfl, ?_, ?_⟩
    · exact pending_rearmed T index _
    · simp only [Outcome.state]
      rw [mem_rearmed]
      rfl
  · intro hd
    rw [INT_IRQHandler_null T pin index data s h hd hf]
    exact ⟨rfl, rfl, mem_disarmed T pin index s⟩

/-- Witness of C4 (amended): channel 0 of `zeroState`, sampled value 2. -/
theorem INT_IRQHandler_no_handler_witness :
    supported 0 ∧ zeroState.hal_irq_handler 0 = none ∧
    callbacks (INT_IRQHandler sampleTarget .PA2 0 2 zeroState).state.trace
      = callbacks zeroState.trace :=
  ⟨by decide, rfl, (INT_IRQHandler_no_handler sampleTarget .PA2 0 2 zeroState (by decide) rfl).1⟩

/-! ## Lemmas on `gpio_irq_init` and `gpio_irq_free` -/

/-- Every channel of the pin table is one the Register Sequencer serves. -/
theorem pinmap_peripheral_supported (pin : PinName) (ch : Nat)
    (hp : pinmap_peripheral pin PinMap_GPIO_IRQ = some ch) : supported ch := by
  cases pin <;> simp [pinmap_peripheral, PinMap_GPIO_IRQ] at hp <;> subst hp <;> decide

theorem gpio_irq_init_mapped (T : Target) (obj : gpio_irq_t) (pin : PinName)
    (handler : Option Nat) (id ch : Nat) (s : State)
    (hp : pinmap_peripheral pin PinMap_GPIO_IRQ = some ch) :
    gpio_irq_init T obj pin handler id s
      = .ok 0 (init_obj T pin ch, init_state T pin ch handler id s) := by
  have hs : supported ch := pinmap_peripheral_supported pin ch hp
  have hlt : ch < CHANNEL_NUM := by
    unfold supported at hs; unfold CHANNEL_NUM; omega
  unfold gpio_irq_init
  simp only [hp, hlt, if_true, CG_SetSTBYReleaseINTSrc_supported T ch _ _ _ hs]
  rfl

theorem gpio_irq_free_in_bounds (obj : gpio_irq_t) (s : State)
    (hlt : obj.irq_src < CHANNEL_NUM) :
    gpio_irq_free obj s
      = .ok () (obj, gpio_irq_disable obj
          (set_id obj.irq_src 0 (set_handler obj.irq_src none
            (NVIC_ClearPendingIRQ obj.irq_id s)))) := by
  unfold gpio_irq_free
  simp only [hlt, if_true]

theorem or_mod_byte (a b : Nat) (ha : a < 256) (hb : b < 256) : (a ||| b) % 256 = a ||| b :=
  Nat.mod_eq_of_lt (@Nat.or_lt_two_pow a b 8 ha hb)

theorem callbacks_emit (e : Effect) (s : State) :
    callbacks (emit e s).trace = callbacks s.trace ++ callbacks [e] := by
  simp [emit, callbacks_append]

theorem init_state_handler (T : Target) (pin : PinName) (ch : Nat) (handler : Option Nat)
    (id : Nat) (s : State) : (init_state T pin ch handler id s).hal_irq_handler ch = handler := by
  simp [init_state, emit, load8, clear_then_set, store8, NVIC_ClearPendingIRQ, set_id,
    set_handler]

theorem init_state_id (T : Target) (pin : PinName) (ch : Nat) (handler : Option Nat)
    (id : Nat) (s : State) : (init_state T pin ch handler id s).channel_ids ch = id := by
  simp [init_state, emit, load8, clear_then_set, store8, NVIC_ClearPendingIRQ, set_id]

theorem init_state_CurrentState (T : Target) (pin : PinName) (ch : Nat)
    (handler : Option Nat) (id : Nat) (s : State) :
    (init_state T pin ch handler id s).CurrentState = s.CurrentState := by
  simp [init_state, emit, load8, clear_then_set, store8, NVIC_ClearPendingIRQ, set_id,
    set_handler, gpio_write_bit]

theorem init_state_callbacks (T : Target) (pin : PinName) (ch : Nat) (handler : Option Nat)
    (id : Nat) (s : State) :
    callbacks (init_state T pin ch handler id s).trace = callbacks s.trace := by
  simp [init_state, emit, load8, clear_then_set, store8, NVIC_ClearPendingIRQ, set_id,
    set_handler, gpio_write_bit, callbacks_append, callbacks]

theorem init_state_mem (T : Target) (pin : PinName) (ch : Nat) (handler : Option Nat)
    (id : Nat) (s : State) :
    (init_state T pin ch handler id s).mem (field_of T ch)
      = (T.CG_INT_ACTIVE_STATE_BOTH_EDGES ||| ENABLE) % 256 := by
  simp [init_state, emit, load8, clear_then_set, store8]

theorem init_state_pending (T : Target) (pin : PinName) (ch : Nat) (handler : Option Nat)
    (id : Nat) (s : State) : (init_state T pin ch handler id s).nvic_pending ch = false := by
  simp [init_state, emit, load8, clear_then_set, store8, NVIC_ClearPendingIRQ]

theorem init_state_gpio_data (T : Target) (pin : PinName) (ch : Nat) (handler : Option Nat)
    (id : Nat) (s : State) :
    (init_state T pin ch handler id s).gpio_data (T.PIN_PORT pin) (T.PIN_POS pin) = 0 := by
  simp [init_state, emit, load8, clear_then_set, store8, NVIC_ClearPendingIRQ, set_id,
    set_handler, gpio_write_bit]

/-! ## C5 -/

/-- C5 (what the code does): from the initial state, `gpio_irq_init` binds handler `H`
with user id 42 to channel 0 and writes (BOTH_EDGES | ENABLE) to the channel's field; the
dispatch of channel 0 on level 1 then returns and makes the single callback
`H(42, IRQ_RISE)`, but re-arms with the global `CurrentState`, which `gpio_irq_init` never
stores and is still 0: the field ends holding 0 | ENABLE = 1. -/
theorem init_then_dispatch_rearms_with_CurrentState (T : Target) (obj : gpio_irq_t)
    (H : Nat) (hw : State) :
    (init_then_dispatch T obj H 1 (boot hw)).returned = true ∧
    callbacks (init_then_dispatch T obj H 1 (boot hw)).state.2.trace
      = callbacks hw.trace ++ [(H, 42, gpio_irq_event.IRQ_RISE)] ∧
    (gpio_irq_init T obj .PA2 (some H) 42 (boot hw)).state.2.mem (T.IMC .IMC033)
      = (T.CG_INT_ACTIVE_STATE_BOTH_EDGES ||| ENABLE) % 256 ∧
    (init_then_dispatch T obj H 1 (boot hw)).state.2.mem (T.IMC .IMC033) = 1 ∧
    ((T.CG_INT_ACTIVE_STATE_BOTH_EDGES ||| ENABLE) % 256 ≠ 1 →
      (init_then_dispatch T obj H 1 (boot hw)).state.2.mem (T.IMC .IMC033)
        ≠ (gpio_irq_init T obj .PA2 (some H) 42 (boot hw)).state.2.mem (T.IMC .IMC033)) := by
  suffices hmain :
      (init_then_dispatch T obj H 1 (boot hw)).returned = true ∧
      callbacks (init_then_dispatch T obj H 1 (boot hw)).state.2.trace
        = callbacks hw.trace ++ [(H, 42, gpio_irq_event.IRQ_RISE)] ∧
      (gpio_irq_init T obj .PA2 (some H) 42 (boot hw)).state.2.mem (T.IMC .IMC033)
        = (T.CG_INT_ACTIVE_STATE_BOTH_EDGES ||| ENABLE) % 256 ∧
      (init_then_dispatch T obj H 1 (boot hw)).state.2.mem (T.IMC .IMC033) = 1 by
    obtain ⟨a1, a2, a3, a4⟩ := hmain
    refine ⟨a1, a2, a3, a4, ?_⟩
    intro hne
    rw [a3, a4]
    exact fun hc => hne hc.symm
  have hp : pinmap_peripheral .PA2 PinMap_GPIO_IRQ = some 0 := rfl
  have hs : supported 0 := by decide
  have h0 : T.IMC .IMC033 = field_of T 0 := rfl
  have hrun : init_then_dispatch T obj H 1 (boot hw)
      = .ok () (init_obj T .PA2 0, rearmed T 0
          (emit (.callback H 42 .IRQ_RISE)
            (disarmed T .PA2 0 (init_state T .PA2 0 (some H) 42 (boot hw))))) := by
    unfold init_then_dispatch INT00_IRQHandler
    rw [gpio_irq_init_mapped T obj .PA2 (some H) 42 0 (boot hw) hp]
    simp only
    rw [INT_IRQHandler_level T .PA2 0 1 H _ hs (Or.inr rfl) (init_state_handler _ _ _ _ _ _),
      init_state_id]
    rfl
  refine ⟨?_, ?_, ?_, ?_⟩
  · rw [hrun]; rfl
  · rw [hrun]
    show callbacks (rearmed T 0 _).trace = _
    rw [callbacks_rearmed, callbacks_emit, callbacks_disarmed, init_state_callbacks]
    rfl
  · rw [gpio_irq_init_mapped T obj .PA2 (some H) 42 0 (boot hw) hp, h0]
    exact init_state_mem T .PA2 0 (some H) 42 (boot hw)
  · rw [hrun, h0]
    show (rearmed T 0 _).mem (field_of T 0) = 1
    rw [mem_rearmed]
    have hcs : (emit (.callback H 42 .IRQ_RISE)
        (disarmed T .PA2 0 (init_state T .PA2 0 (some H) 42 (boot hw)))).CurrentState
        = (init_state T .PA2 0 (some H) 42 (boot hw)).CurrentState := rfl
    rw [hcs, init_state_CurrentState]
    show ((0 : Nat) ||| ENABLE) % 256 = 1
    decide

/-- Evaluation of C5 on `sampleTarget` (BOTH_EDGES = 0x08) with handler 7: init writes
0x09 to the field of channel 0, the dispatch leaves 0x01 there. -/
theorem init_then_dispatch_rearms_with_CurrentState_witness :
    (gpio_irq_init sampleTarget objPA2 .PA2 (some 7) 42 (boot zeroState)).state.2.mem
        (sampleTarget.IMC .IMC033) = 0x09 ∧
    (init_then_dispatch sampleTarget objPA2 7 1 (boot zeroState)).state.2.mem
        (sampleTarget.IMC .IMC033) = 0x01 :=
  ⟨(init_then_dispatch_rearms_with_CurrentState sampleTarget objPA2 7 zeroState).2.2.1,
    (init_then_dispatch_rearms_with_CurrentState sampleTarget objPA2 7 zeroState).2.2.2.1⟩

/-! ## C6 -/

/-- C6: for every pin of `PinMap_GPIO_IRQ` (mapped to channel `ch`) and every prior
state, `gpio_irq_init(obj, pin, handler, id)` returns 0 and leaves `obj->event` =
BOTH_EDGES, `hal_irq_handler[ch]` = handler and `channel_ids[ch]` = id whatever they held
before, the channel's pending flag cleared, the pin's data bit low, and the channel's
control field holding the byte BOTH_EDGES | ENABLE. -/
theorem gpio_irq_init_mapped_post (T : Target) (obj : gpio_irq_t) (pin : PinName)
    (handler : Option Nat) (id ch : Nat) (s : State)
    (hp : pinmap_peripheral pin PinMap_GPIO_IRQ = some ch) :
    (gpio_irq_init T obj pin handler id s).ret = some 0 ∧
    (gpio_irq_init T obj pin handler id s).state.1.irq_src = ch ∧
    (gpio_irq_init T obj pin handler id s).state.1.event = T.CG_INT_ACTIVE_STATE_BOTH_EDGES ∧
    (gpio_irq_init T obj pin handler id s).state.2.hal_irq_handler ch = handler ∧
    (gpio_irq_init T obj pin handler id s).state.2.channel_ids ch = id ∧
    (gpio_irq_init T obj pin handler id s).state.2.nvic_pending ch = false ∧
    (gpio_irq_init T obj pin handler id s).state.2.gpio_data (T.PIN_PORT pin) (T.PIN_POS pin)
      = 0 ∧
    (gpio_irq_init T obj pin handler id s).state.2.mem (field_of T ch)
      = (T.CG_INT_ACTIVE_STATE_BOTH_EDGES ||| ENABLE) % 256 ∧
    (T.CG_INT_ACTIVE_STATE_BOTH_EDGES < 256 →
      (gpio_irq_init T obj pin handler id s).state.2.mem (field_of T ch)
        = T.CG_INT_ACTIVE_STATE_BOTH_EDGES ||| ENABLE) := by
  rw [gpio_irq_init_mapped T obj pin handler id ch s hp]
  refine ⟨rfl, rfl, rfl, init_state_handler _ _ _ _ _ _, init_state_id _ _ _ _ _ _,
    init_state_pending _ _ _ _ _ _, init_state_gpio_data _ _ _ _ _ _,
    init_state_mem _ _ _ _ _ _, ?_⟩
  intro hb
  show (init_state T pin ch handler id s).mem (field_of T ch) = _
  rw [init_state_mem]
  exact or_mod_byte _ _ hb (by decide)

/-- Witness of C6: pin PE4 is mapped to channel 11; a second init on a state where
handler 7 / id 42 sit on channel 0 is taken from `parkedState`. -/
theorem gpio_irq_init_mapped_post_witness :
    pinmap_peripheral .PE4 PinMap_GPIO_IRQ = some 11 ∧
    (gpio_irq_init sampleTarget objPA2 .PE4 (some 9) 5 parkedState).state.2.hal_irq_handler 11
      = some 9 :=
  ⟨rfl, (gpio_irq_init_mapped_post sampleTarget objPA2 .PE4 (some 9) 5 11 parkedState rfl).2.2.2.1⟩

/-! ## C7 -/

/-- C7: for every pin of `PinMap_GPIO_IRQ` (mapped to channel `ch`), `gpio_irq_init`
followed by `gpio_irq_free` on the same object returns and leaves the channel
unregistered (`hal_irq_handler[ch]` = NULL, `channel_ids[ch]` = 0) and its vector
disabled at the interrupt controller. -/
theorem gpio_irq_init_free (T : Target) (obj : gpio_irq_t) (pin : PinName)
    (handler : Option Nat) (id ch : Nat) (s : State)
    (hp : pinmap_peripheral pin PinMap_GPIO_IRQ = some ch) :
    ((gpio_irq_init T obj pin handler id s).andThen
        (fun c => gpio_irq_free c.1 c.2)).returned = true ∧
    ((gpio_irq_init T obj pin handler id s).andThen
        (fun c => gpio_irq_free c.1 c.2)).state.2.hal_irq_handler ch = none ∧
    ((gpio_irq_init T obj pin handler id s).andThen
        (fun c => gpio_irq_free c.1 c.2)).state.2.channel_ids ch = 0 ∧
    ((gpio_irq_init T obj pin handler id s).andThen
        (fun c => gpio_irq_free c.1 c.2)).state.2.nvic_enabled ch = false := by
  have hs : supported ch := pinmap_peripheral_supported pin ch hp
  have hlt : (init_obj T pin ch).irq_src < CHANNEL_NUM := by
    unfold supported at hs; unfold CHANNEL_NUM init_obj; simp only; omega
  rw [gpio_irq_init_mapped T obj pin handler id ch s hp]
  simp only [Outcome.andThen]
  rw [gpio_irq_free_in_bounds _ _ hlt]
  refine ⟨rfl, ?_, ?_, ?_⟩ <;>
    simp [Outcome.state, init_obj, gpio_irq_disable, NVIC_DisableIRQ, emit, set_id, set_handler]

/-- Witness of C7: pin PG3 is mapped to channel 21. -/
theorem gpio_irq_init_free_witness :
    pinmap_peripheral .PG3 PinMap_GPIO_IRQ = some 21 ∧
    ((gpio_irq_init sampleTarget objPA2 .PG3 (some 9) 5 zeroState).andThen
        (fun c => gpio_irq_free c.1 c.2)).state.2.nvic_enabled 21 = false :=
  ⟨rfl, (gpio_irq_init_free sampleTarget objPA2 .PG3 (some 9) 5 21 zeroState rfl).2.2.2⟩

/-! ## C9 -/

/-- C9: for every channel index outside the served set (19, 20 and every value from 22
on), every policy and every enable flag, `CG_SetSTBYReleaseINTSrc` returns having taken
no branch: it makes no store (the only effect it adds is the closing load), and every
register byte, interrupt-controller flag, GPIO data bit and global holds the value it
held before the call. -/
theorem CG_SetSTBYReleaseINTSrc_outside_no_op (T : Target) (n a e : Nat) (s : State)
    (h : n = 19 ∨ n = 20 ∨ 22 ≤ n) :
    (CG_SetSTBYReleaseINTSrc T n a e s).returned = true ∧
    added s (CG_SetSTBYReleaseINTSrc T n a e s).state = [.load8 NULL] ∧
    stores (CG_SetSTBYReleaseINTSrc T n a e s).state.trace = stores s.trace ∧
    (CG_SetSTBYReleaseINTSrc T n a e s).state.mem = s.mem ∧
    (CG_SetSTBYReleaseINTSrc T n a e s).state.nvic_enabled = s.nvic_enabled ∧
    (CG_SetSTBYReleaseINTSrc T n a e s).state.nvic_pending = s.nvic_pending ∧
    (CG_SetSTBYReleaseINTSrc T n a e s).state.gpio_data = s.gpio_data ∧
    (CG_SetSTBYReleaseINTSrc T n a e s).state.hal_irq_handler = s.hal_irq_handler ∧
    (CG_SetSTBYReleaseINTSrc T n a e s).state.channel_ids = s.channel_ids ∧
    (CG_SetSTBYReleaseINTSrc T n a e s).state.CurrentState = s.CurrentState := by
  have hn : ¬ supported n := by unfold supported; omega
  rw [CG_SetSTBYReleaseINTSrc_unsupported T n a e s hn]
  refine ⟨rfl, ?_, ?_, rfl, rfl, rfl, rfl, rfl, rfl, rfl⟩
  · exact added_append s _ _ rfl
  · simp [Outcome.state, load8, emit, stores_append, stores]

/-- Witness of C9: channel index 19 on `sampleTarget`, policy 0x08, flag ENABLE, in
`parkedState`: the call returns and the register bytes are as before. -/
theorem CG_SetSTBYReleaseINTSrc_outside_no_op_witness :
    ((19 : Nat) = 19 ∨ (19 : Nat) = 20 ∨ 22 ≤ (19 : Nat)) ∧
    (CG_SetSTBYReleaseINTSrc sampleTarget 19 0x08 ENABLE parkedState).returned = true ∧
    (CG_SetSTBYReleaseINTSrc sampleTarget 19 0x08 ENABLE parkedState).state.mem
      = parkedState.mem :=
  ⟨Or.inl rfl,
    (CG_SetSTBYReleaseINTSrc_outside_no_op sampleTarget 19 0x08 ENABLE parkedState
      (Or.inl rfl)).1,
    (CG_SetSTBYReleaseINTSrc_outside_no_op sampleTarget 19 0x08 ENABLE parkedState
      (Or.inl rfl)).2.2.2.1⟩

/-! ## C10 -/

/-- C10: for every served channel index (0..18 and 21), every policy and every enable
flag, `CG_SetSTBYReleaseINTSrc` returns after exactly two stores, both to the byte field
selected by the channel index: first `CLR_INT_FLAG` (0xC0), then the byte
(policy | enable); the field ends holding that byte, equal to policy | enable when both
are byte values, and every other address keeps its content. -/
theorem CG_SetSTBYReleaseINTSrc_two_stores (T : Target) (n a e : Nat) (s : State)
    (h : n ≤ 18 ∨ n = 21) :
    (CG_SetSTBYReleaseINTSrc T n a e s).returned = true ∧
    stores (CG_SetSTBYReleaseINTSrc T n a e s).state.trace
      = stores s.trace ++ [(field_of T n, 0xC0), (field_of T n, (a ||| e) % 256)] ∧
    (CG_SetSTBYReleaseINTSrc T n a e s).state.mem (field_of T n) = (a ||| e) % 256 ∧
    (∀ addr, addr ≠ field_of T n →
      (CG_SetSTBYReleaseINTSrc T n a e s).state.mem addr = s.mem addr) ∧
    (a < 256 → e < 256 →
      (CG_SetSTBYReleaseINTSrc T n a e s).state.mem (field_of T n) = a ||| e) := by
  rw [CG_SetSTBYReleaseINTSrc_supported T n a e s h]
  have hm : (load8 (field_of T n) (clear_then_set (field_of T n) a e s)).mem (field_of T n)
      = (a ||| e) % 256 := by
    simp [emit, load8, clear_then_set, store8]
  refine ⟨rfl, ?_, hm, ?_, ?_⟩
  · simp [Outcome.state, emit, load8, clear_then_set, store8, stores_append, stores,
      CLR_INT_FLAG]
  · intro addr hne
    simp [Outcome.state, emit, load8, clear_then_set, store8, hne]
  · intro ha he
    show (load8 (field_of T n) (clear_then_set (field_of T n) a e s)).mem (field_of T n) = _
    rw [hm]
    exact or_mod_byte a e ha he

/-- Witness of C10: channel 12 on `sampleTarget`, policy 0x06 (RISING), flag ENABLE: the
field at IMC054 + 0 ends holding 0x07. -/
theorem CG_SetSTBYReleaseINTSrc_two_stores_witness :
    ((12 : Nat) ≤ 18 ∨ (12 : Nat) = 21) ∧
    (CG_SetSTBYReleaseINTSrc sampleTarget 12 0x06 ENABLE zeroState).state.mem
      (field_of sampleTarget 12) = 0x07 :=
  ⟨by decide,
    (CG_SetSTBYReleaseINTSrc_two_stores sampleTarget 12 0x06 ENABLE zeroState
      (by decide)).2.2.2.2 (by decide) (by decide)⟩

/-! ## Further lemmas on `gpio_irq_set` -/

theorem gpio_irq_set_armed (T : Target) (obj : gpio_irq_t) (ev : gpio_irq_event)
    (en p : Nat) (s : State) (h : supported obj.irq_src)
    (he : gpio_irq_set_event T obj.event ev en = some p)
    (hp : p ≠ T.CG_INT_ACTIVE_STATE_INVALID) :
    gpio_irq_set T obj ev en s = .ok () ({ obj with event := p }, armed_state T obj p s) := by
  unfold gpio_irq_set
  simp only [he, ne_eq, hp, not_false_eq_true, if_true,
    CG_SetSTBYReleaseINTSrc_supported T obj.irq_src _ _ _ h]
  rfl

theorem gpio_irq_set_event_rise_enable (T : Target) (cur en : Nat) (hen : en ≠ 0) :
    gpio_irq_set_event T cur .IRQ_RISE en =
      some (if cur = T.CG_INT_ACTIVE_STATE_FALLING ∨ cur = T.CG_INT_ACTIVE_STATE_BOTH_EDGES
        then T.CG_INT_ACTIVE_STATE_BOTH_EDGES else T.CG_INT_ACTIVE_STATE_RISING) := by
  unfold gpio_irq_set_event
  split_ifs <;> simp_all

theorem gpio_irq_set_event_fall_enable (T : Target) (cur en : Nat) (hen : en ≠ 0) :
    gpio_irq_set_event T cur .IRQ_FALL en =
      some (if cur = T.CG_INT_ACTIVE_STATE_RISING ∨ cur = T.CG_INT_ACTIVE_STATE_BOTH_EDGES
        then T.CG_INT_ACTIVE_STATE_BOTH_EDGES else T.CG_INT_ACTIVE_STATE_FALLING) := by
  unfold gpio_irq_set_event
  split_ifs <;> simp_all

theorem gpio_irq_set_event_fall_off (T : Target) (cur : Nat) :
    gpio_irq_set_event T cur .IRQ_FALL 0 =
      some (if cur = T.CG_INT_ACTIVE_STATE_FALLING ∨ cur = T.CG_INT_ACTIVE_STATE_INVALID
        then T.CG_INT_ACTIVE_STATE_BOTH_EDGES else T.CG_INT_ACTIVE_STATE_RISING) := by
  unfold gpio_irq_set_event
  split_ifs <;> simp_all

theorem armed_state_CurrentState (T : Target) (obj : gpio_irq_t) (p : Nat) (s : State) :
    (armed_state T obj p s).CurrentState = p := by
  simp [armed_state, gpio_irq_enable, gpio_irq_disable, NVIC_EnableIRQ, NVIC_DisableIRQ,
    NVIC_ClearPendingIRQ, gpio_write_bit, load8, clear_then_set, store8, emit]

theorem armed_state_mem (T : Target) (obj : gpio_irq_t) (p : Nat) (s : State) :
    (armed_state T obj p s).mem (field_of T obj.irq_src) = (p ||| ENABLE) % 256 := by
  simp [armed_state, gpio_irq_enable, gpio_irq_disable, NVIC_EnableIRQ, NVIC_DisableIRQ,
    NVIC_ClearPendingIRQ, gpio_write_bit, load8, clear_then_set, store8, emit]

theorem armed_state_gpio_data (T : Target) (obj : gpio_irq_t) (p : Nat) (s : State) :
    (armed_state T obj p s).gpio_data obj.port obj.pin_num = 0 := by
  simp [armed_state, gpio_irq_enable, gpio_irq_disable, NVIC_EnableIRQ, NVIC_DisableIRQ,
    NVIC_ClearPendingIRQ, gpio_write_bit, load8, clear_then_set, store8, emit]

theorem armed_state_pending (T : Target) (obj : gpio_irq_t) (p : Nat) (s : State) :
    (armed_state T obj p s).nvic_pending obj.irq_id = false := by
  simp [armed_state, gpio_irq_enable, gpio_irq_disable, NVIC_EnableIRQ, NVIC_DisableIRQ,
    NVIC_ClearPendingIRQ, gpio_write_bit, load8, clear_then_set, store8, emit]

theorem armed_state_enabled (T : Target) (obj : gpio_irq_t) (p : Nat) (s : State) :
    (armed_state T obj p s).nvic_enabled obj.irq_id = true := by
  simp [armed_state, gpio_irq_enable, gpio_irq_disable, NVIC_EnableIRQ, NVIC_DisableIRQ,
    NVIC_ClearPendingIRQ, gpio_write_bit, load8, clear_then_set, store8, emit]

/-! ## C11 -/

/-- C11: for every starting policy of an object on a served channel, `gpio_irq_set` with a
non-zero `enable` returns with the edge union: enabling IRQ_RISE leaves BOTH_EDGES when the
prior policy is FALLING or BOTH_EDGES and RISING otherwise; enabling IRQ_FALL leaves
BOTH_EDGES when the prior policy is RISING or BOTH_EDGES and FALLING otherwise. -/
theorem gpio_irq_set_enable_union (T : Target) (obj : gpio_irq_t) (en : Nat) (s : State)
    (h : supported obj.irq_src) (hen : en ≠ 0) :
    ((gpio_irq_set T obj .IRQ_RISE en s).returned = true ∧
      (gpio_irq_set T obj .IRQ_RISE en s).state.1.event
        = (if obj.event = T.CG_INT_ACTIVE_STATE_FALLING ∨
              obj.event = T.CG_INT_ACTIVE_STATE_BOTH_EDGES
            then T.CG_INT_ACTIVE_STATE_BOTH_EDGES else T.CG_INT_ACTIVE_STATE_RISING)) ∧
    ((gpio_irq_set T obj .IRQ_FALL en s).returned = true ∧
      (gpio_irq_set T obj .IRQ_FALL en s).state.1.event
        = (if obj.event = T.CG_INT_ACTIVE_STATE_RISING ∨
              obj.event = T.CG_INT_ACTIVE_STATE_BOTH_EDGES
            then T.CG_INT_ACTIVE_STATE_BOTH_EDGES else T.CG_INT_ACTIVE_STATE_FALLING)) := by
  constructor
  · obtain ⟨s1, h1⟩ := gpio_irq_set_returns T obj .IRQ_RISE en _ s h
      (gpio_irq_set_event_rise_enable T obj.event en hen)
    rw [h1]
    exact ⟨rfl, rfl⟩
  · obtain ⟨s1, h1⟩ := gpio_irq_set_returns T obj .IRQ_FALL en _ s h
      (gpio_irq_set_event_fall_enable T obj.event en hen)
    rw [h1]
    exact ⟨rfl, rfl⟩

/-- Witness of C11: `objPA4` holds FALLING (0x04); enabling IRQ_RISE with flag 5 leaves
BOTH_EDGES (0x08). -/
theorem gpio_irq_set_enable_union_witness :
    supported objPA4.irq_src ∧ (5 : Nat) ≠ 0 ∧
    (gpio_irq_set sampleTarget objPA4 .IRQ_RISE 5 zeroState).state.1.event = 0x08 :=
  ⟨by decide, by decide,
    (gpio_irq_set_enable_union sampleTarget objPA4 5 zeroState (by decide) (by decide)).1.2⟩

/-! ## C12 -/

/-- C12: for every object on a served channel, every state and every supported edge
whose resulting policy `p` is not INVALID, `gpio_irq_set` returns with `obj->event` = p,
the global `CurrentState` = p, the channel's control field holding the byte p | ENABLE
(p | ENABLE itself when p is a byte value), the pin's data bit low, the vector's pending
flag cleared and the vector enabled, whatever the vector's enable flag was before. -/
theorem gpio_irq_set_arms (T : Target) (obj : gpio_irq_t) (ev : gpio_irq_event)
    (en p : Nat) (s : State) (h : supported obj.irq_src)
    (he : gpio_irq_set_event T obj.event ev en = some p)
    (hp : p ≠ T.CG_INT_ACTIVE_STATE_INVALID) :
    (gpio_irq_set T obj ev en s).returned = true ∧
    (gpio_irq_set T obj ev en s).state.1.event = p ∧
    (gpio_irq_set T obj ev en s).state.2.CurrentState = p ∧
    (gpio_irq_set T obj ev en s).state.2.mem (field_of T obj.irq_src) = (p ||| ENABLE) % 256 ∧
    (p < 256 →
      (gpio_irq_set T obj ev en s).state.2.mem (field_of T obj.irq_src) = p ||| ENABLE) ∧
    (gpio_irq_set T obj ev en s).state.2.gpio_data obj.port obj.pin_num = 0 ∧
    (gpio_irq_set T obj ev en s).state.2.nvic_pending obj.irq_id = false ∧
    (gpio_irq_set T obj ev en s).state.2.nvic_enabled obj.irq_id = true := by
  rw [gpio_irq_set_armed T obj ev en p s h he hp]
  refine ⟨rfl, rfl, armed_state_CurrentState T obj p s, armed_state_mem T obj p s, ?_,
    armed_state_gpio_data T obj p s, armed_state_pending T obj p s,
    armed_state_enabled T obj p s⟩
  intro hb
  show (armed_state T obj p s).mem (field_of T obj.irq_src) = _
  rw [armed_state_mem]
  exact or_mod_byte p ENABLE hb (by decide)

/-- Witness of C12: disabling IRQ_RISE on `objPA4` (FALLING) keeps FALLING (0x04); the
field of channel 1 ends holding 0x05. -/
theorem gpio_irq_set_arms_witness :
    supported objPA4.irq_src ∧
    gpio_irq_set_event sampleTarget objPA4.event .IRQ_RISE 0 = some 0x04 ∧
    (0x04 : Nat) ≠ sampleTarget.CG_INT_ACTIVE_STATE_INVALID ∧
    (gpio_irq_set sampleTarget objPA4 .IRQ_RISE 0 zeroState).state.2.mem
      (field_of sampleTarget objPA4.irq_src) = 0x05 :=
  ⟨by decide, by decide, by decide,
    (gpio_irq_set_arms sampleTarget objPA4 .IRQ_RISE 0 0x04 zeroState (by decide) (by decide)
      (by decide)).2.2.2.2.1 (by decide)⟩

/-! ## C13 -/

/-- C13: `gpio_irq_enable` clears the pending flag of the object's vector and enables
it, `gpio_irq_disable` disables it, and neither changes anything else: for every state
the register bytes, the register stores of the trace, `hal_irq_handler`, `channel_ids`,
`CurrentState`, the GPIO data bits and the flags of every other vector are as before
(the object itself, its policy included, is only read). -/
theorem gpio_irq_enable_disable_frame (obj : gpio_irq_t) (s : State) :
    ((gpio_irq_enable obj s).nvic_pending obj.irq_id = false ∧
      (gpio_irq_enable obj s).nvic_enabled obj.irq_id = true ∧
      (∀ i, i ≠ obj.irq_id →
        (gpio_irq_enable obj s).nvic_pending i = s.nvic_pending i ∧
        (gpio_irq_enable obj s).nvic_enabled i = s.nvic_enabled i) ∧
      (gpio_irq_enable obj s).mem = s.mem ∧
      stores (gpio_irq_enable obj s).trace = stores s.trace ∧
      (gpio_irq_enable obj s).hal_irq_handler = s.hal_irq_handler ∧
      (gpio_irq_enable obj s).channel_ids = s.channel_ids ∧
      (gpio_irq_enable obj s).CurrentState = s.CurrentState ∧
      (gpio_irq_enable obj s).gpio_data = s.gpio_data) ∧
    ((gpio_irq_disable obj s).nvic_enabled obj.irq_id = false ∧
      (gpio_irq_disable obj s).nvic_pending = s.nvic_pending ∧
      (∀ i, i ≠ obj.irq_id →
        (gpio_irq_disable obj s).nvic_enabled i = s.nvic_enabled i) ∧
      (gpio_irq_disable obj s).mem = s.mem ∧
      stores (gpio_irq_disable obj s).trace = stores s.trace ∧
      (gpio_irq_disable obj s).hal_irq_handler = s.hal_irq_handler ∧
      (gpio_irq_disable obj s).channel_ids = s.channel_ids ∧
      (gpio_irq_disable obj s).CurrentState = s.CurrentState ∧
      (gpio_irq_disable obj s).gpio_data = s.gpio_data) := by
  refine ⟨⟨?_, ?_, ?_, rfl, ?_, rfl, rfl, rfl, rfl⟩, ⟨?_, rfl, ?_, rfl, ?_, rfl, rfl, rfl, rfl⟩⟩
  · simp [gpio_irq_enable, NVIC_EnableIRQ, NVIC_ClearPendingIRQ, emit]
  · simp [gpio_irq_enable, NVIC_EnableIRQ, NVIC_ClearPendingIRQ, emit]
  · intro i hi
    simp [gpio_irq_enable, NVIC_EnableIRQ, NVIC_ClearPendingIRQ, emit, hi]
  · simp [gpio_irq_enable, NVIC_EnableIRQ, NVIC_ClearPendingIRQ, emit, stores_append, stores]
  · simp [gpio_irq_disable, NVIC_DisableIRQ, emit]
  · intro i hi
    simp [gpio_irq_disable, NVIC_DisableIRQ, emit, hi]
  · simp [gpio_irq_disable, NVIC_DisableIRQ, emit, stores_append, stores]

/-! ## C14 -/

/-- C14: for every edge argument other than IRQ_RISE and IRQ_FALL and every value of the
enable flag, `gpio_irq_set` does not return: it stops at `error` (recorded in the trace),
and at that point `obj->event`, the global `CurrentState` and every register byte are as
before the call, no register store having been made. -/
theorem gpio_irq_set_unsupported_edge (T : Target) (obj : gpio_irq_t) (ev : gpio_irq_event)
    (en : Nat) (s : State) (h1 : ev ≠ .IRQ_RISE) (h2 : ev ≠ .IRQ_FALL) :
    gpio_irq_set T obj ev en s = .halt .fatal_error (obj, error (gpio_irq_disable obj s)) ∧
    (gpio_irq_set T obj ev en s).returned = false ∧
    Effect.error ∈ (gpio_irq_set T obj ev en s).state.2.trace ∧
    (gpio_irq_set T obj ev en s).state.1.event = obj.event ∧
    (gpio_irq_set T obj ev en s).state.2.CurrentState = s.CurrentState ∧
    (gpio_irq_set T obj ev en s).state.2.mem = s.mem ∧
    stores (gpio_irq_set T obj ev en s).state.2.trace = stores s.trace := by
  have hnone : gpio_irq_set_event T obj.event ev en = none := by
    unfold gpio_irq_set_event
    simp [h1, h2]
  have hrun : gpio_irq_set T obj ev en s
      = .halt .fatal_error (obj, error (gpio_irq_disable obj s)) := by
    unfold gpio_irq_set
    simp only [hnone]
  rw [hrun]
  refine ⟨rfl, rfl, ?_, rfl, rfl, rfl, ?_⟩
  · simp [Outcome.state, error, emit]
  · simp [Outcome.state, error, emit, gpio_irq_disable, NVIC_DisableIRQ, stores_append, stores]

/-- Witness of C14: `gpio_irq_set(obj, IRQ_NONE, 1)` on `objPA4` stops at `error` and leaves
the policy 0x04. -/
theorem gpio_irq_set_unsupported_edge_witness :
    gpio_irq_event.IRQ_NONE ≠ .IRQ_RISE ∧ gpio_irq_event.IRQ_NONE ≠ .IRQ_FALL ∧
    (gpio_irq_set sampleTarget objPA4 .IRQ_NONE 1 zeroState).returned = false ∧
    (gpio_irq_set sampleTarget objPA4 .IRQ_NONE 1 zeroState).state.1.event = 0x04 :=
  ⟨by decide, by decide,
    (gpio_irq_set_unsupported_edge sampleTarget objPA4 .IRQ_NONE 1 zeroState
      (by decide) (by decide)).2.1,
    (gpio_irq_set_unsupported_edge sampleTarget objPA4 .IRQ_NONE 1 zeroState
      (by decide) (by decide)).2.2.2.1⟩

/-! ## C15 -/

theorem pinmap_peripheral_absent (pin : PinName) (map : List PinMap)
    (h : ∀ e ∈ map, e.pin ≠ pin) : pinmap_peripheral pin map = none := by
  induction map with
  | nil => rfl
  | cons e rest ih =>
    have he : e.pin ≠ pin := h e (List.mem_cons_self e rest)
    simp only [pinmap_peripheral, if_neg he]
    exact ih (fun x hx => h x (List.mem_cons_of_mem e hx))

/-- C15: for every pin that no row of `PinMap_GPIO_IRQ` names, `gpio_irq_init` does not
return success: the run stops at the failing pin lookup (before the critical section is
entered), with `hal_irq_handler`, `channel_ids`, every register byte and the object as
before the call and no register store made. -/
theorem gpio_irq_init_unmapped (T : Target) (obj : gpio_irq_t) (pin : PinName)
    (handler : Option Nat) (id : Nat) (s : State)
    (h : ∀ e ∈ PinMap_GPIO_IRQ, e.pin ≠ pin) :
    gpio_irq_init T obj pin handler id s = .halt .fatal_error (obj, emit .error s) ∧
    (gpio_irq_init T obj pin handler id s).returned = false ∧
    (gpio_irq_init T obj pin handler id s).ret = none ∧
    (gpio_irq_init T obj pin handler id s).state.2.hal_irq_handler = s.hal_irq_handler ∧
    (gpio_irq_init T obj pin handler id s).state.2.channel_ids = s.channel_ids ∧
    (gpio_irq_init T obj pin handler id s).state.2.mem = s.mem ∧
    stores (gpio_irq_init T obj pin handler id s).state.2.trace = stores s.trace := by
  have hrun : gpio_irq_init T obj pin handler id s
      = .halt .fatal_error (obj, emit .error s) := by
    unfold gpio_irq_init
    simp only [pinmap_peripheral_absent pin PinMap_GPIO_IRQ h]
  rw [hrun]
  refine ⟨rfl, rfl, rfl, rfl, rfl, rfl, ?_⟩
  simp [Outcome.state, emit, stores_append, stores]

/-- Witness of C15: pin PA2 is in the table, the pin `other 3` is not; init on it stops
and leaves channel 0 of `parkedState` with handler 7. -/
theorem gpio_irq_init_unmapped_witness :
    (∀ e ∈ PinMap_GPIO_IRQ, e.pin ≠ PinName.other 3) ∧
    (gpio_irq_init sampleTarget objPA2 (.other 3) (some 9) 5 parkedState).returned = false ∧
    (gpio_irq_init sampleTarget objPA2 (.other 3) (some 9) 5 parkedState).state.2.hal_irq_handler
      = parkedState.hal_irq_handler :=
  ⟨by decide,
    (gpio_irq_init_unmapped sampleTarget objPA2 (.other 3) (some 9) 5 parkedState
      (by decide)).2.1,
    (gpio_irq_init_unmapped sampleTarget objPA2 (.other 3) (some 9) 5 parkedState
      (by decide)).2.2.2.1⟩

/-! ## Traces of the runs -/

theorem trace_init_state (T : Target) (pin : PinName) (ch : Nat) (handler : Option Nat)
    (id : Nat) (s : State) :
    (init_state T pin ch handler id s).trace
      = s.trace ++ [.critical_section_enter,
          .gpio_write_bit (T.PIN_PORT pin) (T.PIN_POS pin) 0,
          .pinmap_pinout pin,
          .store_handler ch handler,
          .store_id ch id,
          .NVIC_ClearPendingIRQ ch,
          .store8 (field_of T ch) 0xC0,
          .store8 (field_of T ch) ((T.CG_INT_ACTIVE_STATE_BOTH_EDGES ||| ENABLE) % 256),
          .load8 (field_of T ch),
          .critical_section_exit] := by
  simp [init_state, emit, load8, clear_then_set, store8, NVIC_ClearPendingIRQ, set_id,
    set_handler, gpio_write_bit, CLR_INT_FLAG]

theorem trace_armed_state (T : Target) (obj : gpio_irq_t) (p : Nat) (s : State) :
    (armed_state T obj p s).trace
      = s.trace ++ [.NVIC_DisableIRQ obj.irq_id,
          .store_CurrentState p,
          .store8 (field_of T obj.irq_src) 0xC0,
          .store8 (field_of T obj.irq_src) ((p ||| ENABLE) % 256),
          .load8 (field_of T obj.irq_src),
          .gpio_write_bit obj.port obj.pin_num 0,
          .NVIC_ClearPendingIRQ obj.irq_id,
          .NVIC_ClearPendingIRQ obj.irq_id,
          .NVIC_EnableIRQ obj.irq_id] := by
  simp [armed_state, gpio_irq_enable, gpio_irq_disable, NVIC_EnableIRQ, NVIC_DisableIRQ,
    NVIC_ClearPendingIRQ, gpio_write_bit, load8, clear_then_set, store8, emit, CLR_INT_FLAG]

/-! ## C17 -/

/-- C17: the pin table and the vector bindings agree. For every row (pin, channel n) of
`PinMap_GPIO_IRQ` exactly one vector is named `INTnn_IRQHandler` with nn = n, and it
passes that pin and the index n; every vector is the call of `INT_IRQHandler` with its
pin and index, and its pair is a row of the table; every mapped channel is below
`CHANNEL_NUM` and is one for which `CG_SetSTBYReleaseINTSrc` writes a register. -/
theorem vectors_agree_with_PinMap :
    (∀ e ∈ PinMap_GPIO_IRQ,
      (vectors.filter (fun v => v.number == e.peripheral)).length = 1 ∧
      ∀ v ∈ vectors, v.number = e.peripheral → v.pin = e.pin ∧ v.index = e.peripheral) ∧
    (∀ v ∈ vectors, ∀ (T : Target) (data : Nat) (s : State),
      v.run T data s = INT_IRQHandler T v.pin v.index data s) ∧
    (∀ v ∈ vectors, ∃ e ∈ PinMap_GPIO_IRQ, e.pin = v.pin ∧ e.peripheral = v.index) ∧
    (∀ e ∈ PinMap_GPIO_IRQ, e.peripheral < CHANNEL_NUM ∧ supported e.peripheral) := by
  refine ⟨by decide, ?_, by decide, by decide⟩
  intro v hv T data s
  simp only [vectors, List.mem_cons, List.mem_singleton, List.not_mem_nil, or_false] at hv
  rcases hv with hv | hv | hv | hv | hv | hv | hv | hv | hv | hv | hv | hv | hv | hv | hv |
    hv | hv <;> subst hv <;> rfl

/-! ## C18 -/

/-- C18 (what the code does): for every mapped pin, the effects `gpio_irq_init` adds to
the trace lie inside one critical section (every table, interrupt-controller and register
write after the enter and before the exit); but the effects `gpio_irq_free` adds on the
resulting object are the four writes NVIC_ClearPendingIRQ, `hal_irq_handler[ch] = NULL`,
`channel_ids[ch] = 0`, NVIC_DisableIRQ with no critical-section enter or exit at all. -/
theorem gpio_irq_free_outside_critical_section (T : Target) (obj : gpio_irq_t)
    (pin : PinName) (handler : Option Nat) (id ch : Nat) (s : State)
    (hp : pinmap_peripheral pin PinMap_GPIO_IRQ = some ch) :
    in_critical 0 (added s (gpio_irq_init T obj pin handler id s).state.2) = true ∧
    (∀ s2 : State,
      (gpio_irq_free (gpio_irq_init T obj pin handler id s).state.1 s2).returned = true ∧
      added s2 (gpio_irq_free (gpio_irq_init T obj pin handler id s).state.1 s2).state.2
        = [.NVIC_ClearPendingIRQ ch, .store_handler ch none, .store_id ch 0,
            .NVIC_DisableIRQ ch] ∧
      in_critical 0
        (added s2 (gpio_irq_free (gpio_irq_init T obj pin handler id s).state.1 s2).state.2)
        = false) := by
  have hs : supported ch := pinmap_peripheral_supported pin ch hp
  have hlt : (init_obj T pin ch).irq_src < CHANNEL_NUM := by
    unfold supported at hs; unfold CHANNEL_NUM init_obj; simp only; omega
  rw [gpio_irq_init_mapped T obj pin handler id ch s hp]
  constructor
  · show in_critical 0 (added s (init_state T pin ch handler id s)) = true
    rw [added_append s _ _ (trace_init_state T pin ch handler id s)]
    rfl
  · intro s2
    simp only [Outcome.state]
    rw [gpio_irq_free_in_bounds _ _ hlt]
    have hadd : added s2 (gpio_irq_disable (init_obj T pin ch)
          (set_id (init_obj T pin ch).irq_src 0
            (set_handler (init_obj T pin ch).irq_src none
              (NVIC_ClearPendingIRQ (init_obj T pin ch).irq_id s2))))
        = [.NVIC_ClearPendingIRQ ch, .store_handler ch none, .store_id ch 0,
            .NVIC_DisableIRQ ch] := by
      apply added_append
      simp [gpio_irq_disable, NVIC_DisableIRQ, set_id, set_handler, NVIC_ClearPendingIRQ,
        emit, init_obj]
    refine ⟨rfl, hadd, ?_⟩
    simp only [Outcome.state]
    rw [hadd]
    rfl

/-- Witness of C18: pin PC3 is mapped to channel 3; `gpio_irq_free` after `gpio_irq_init`
adds four writes and no critical section. -/
theorem gpio_irq_free_outside_critical_section_witness :
    pinmap_peripheral .PC3 PinMap_GPIO_IRQ = some 3 ∧
    added zeroState
      (gpio_irq_free (gpio_irq_init sampleTarget objPA2 .PC3 (some 9) 5 zeroState).state.1
        zeroState).state.2
      = [.NVIC_ClearPendingIRQ 3, .store_handler 3 none, .store_id 3 0, .NVIC_DisableIRQ 3] :=
  ⟨rfl,
    ((gpio_irq_free_outside_critical_section sampleTarget objPA2 .PC3 (some 9) 5 3 zeroState
      rfl).2 zeroState).2.1⟩

/-! ## Lemmas on the policy produced by `gpio_irq_set` -/

/-- Whatever the transition computes has an edge on. -/
theorem gpio_irq_set_event_edge_on (T : Target) (cur : Nat) (ev : gpio_irq_event)
    (en p : Nat) (h : gpio_irq_set_event T cur ev en = some p) : edge_on T p := by
  unfold gpio_irq_set_event at h
  unfold edge_on
  split_ifs at h <;> simp_all

/-- For a supported edge the transition computes a policy. -/
theorem gpio_irq_set_event_some (T : Target) (cur : Nat) (ev : gpio_irq_event) (en : Nat)
    (h : ev = .IRQ_RISE ∨ ev = .IRQ_FALL) : ∃ p, gpio_irq_set_event T cur ev en = some p := by
  unfold gpio_irq_set_event
  rcases h with h | h <;> subst h <;> split_ifs <;> simp_all

theorem edge_on_ne_INVALID (T : Target) (p : Nat) (hd : T.distinct) (h : edge_on T p) :
    p ≠ T.CG_INT_ACTIVE_STATE_INVALID := by
  obtain ⟨h1, h2, h3, _, _, _⟩ := hd
  rcases h with h | h | h <;> subst h
  · exact fun hc => h1 hc.symm
  · exact fun hc => h2 hc.symm
  · exact fun hc => h3 hc.symm

/-- When the channel of the object is not served, the Register Sequencer stores nothing
and the call goes on as on a served channel. -/
theorem gpio_irq_set_unserved (T : Target) (obj : gpio_irq_t) (ev : gpio_irq_event)
    (en p : Nat) (s : State) (h : ¬ supported obj.irq_src)
    (he : gpio_irq_set_event T obj.event ev en = some p)
    (hp : p ≠ T.CG_INT_ACTIVE_STATE_INVALID) :
    gpio_irq_set T obj ev en s
      = .ok () ({ obj with event := p },
          gpio_irq_enable obj
            (NVIC_ClearPendingIRQ obj.irq_id
              (gpio_write_bit obj.port obj.pin_num 0
                (load8 NULL
                  (emit (.store_CurrentState p)
                    { gpio_irq_disable obj s with CurrentState := p }))))) := by
  unfold gpio_irq_set
  simp only [he, ne_eq, hp, not_false_eq_true, if_true,
    CG_SetSTBYReleaseINTSrc_unsupported T obj.irq_src _ _ _ h]
  rfl

/-- The object a run of `gpio_irq_set` ends with holds the computed policy. -/
theorem gpio_irq_set_state_event (T : Target) (obj : gpio_irq_t) (ev : gpio_irq_event)
    (en p : Nat) (s : State) (he : gpio_irq_set_event T obj.event ev en = some p) :
    (gpio_irq_set T obj ev en s).state.1.event = p := by
  by_cases hs : supported obj.irq_src
  · obtain ⟨s1, h1⟩ := gpio_irq_set_returns T obj ev en p s hs he
    rw [h1]
    rfl
  · by_cases hp : p = T.CG_INT_ACTIVE_STATE_INVALID
    · unfold gpio_irq_set
      simp [he, hp, Outcome.state]
    · rw [gpio_irq_set_unserved T obj ev en p s hs he hp]
      rfl

theorem run_call_edge_on (T : Target) (a : ApiCall) (c : gpio_irq_t × State)
    (h : (run_call T a c).returned = true) : edge_on T (run_call T a c).state.1.event := by
  cases a with
  | init pin handler id =>
    cases hp : pinmap_peripheral pin PinMap_GPIO_IRQ with
    | none =>
      have hrun : gpio_irq_init T c.1 pin handler id c.2
          = .halt .fatal_error (c.1, emit .error c.2) := by
        unfold gpio_irq_init
        simp only [hp]
      simp [run_call, hrun, Outcome.returned] at h
    | some ch =>
      simp only [run_call, gpio_irq_init_mapped T c.1 pin handler id ch c.2 hp]
      show edge_on T T.CG_INT_ACTIVE_STATE_BOTH_EDGES
      exact Or.inr (Or.inr rfl)
  | set ev en =>
    cases he : gpio_irq_set_event T c.1.event ev en with
    | none =>
      have hrun : gpio_irq_set T c.1 ev en c.2
          = .halt .fatal_error (c.1, error (gpio_irq_disable c.1 c.2)) := by
        unfold gpio_irq_set
        simp only [he]
      simp [run_call, hrun, Outcome.returned] at h
    | some p =>
      simp only [run_call]
      rw [gpio_irq_set_state_event T c.1 ev en p c.2 he]
      exact gpio_irq_set_event_edge_on T c.1.event ev en p he

theorem run_calls_edge_on (T : Target) (calls : List ApiCall) :
    ∀ c : gpio_irq_t × State, (run_calls T calls c).returned = true →
      (calls ≠ [] ∨ edge_on T c.1.event) →
      edge_on T (run_calls T calls c).state.1.event := by
  induction calls with
  | nil =>
    intro c _ hor
    rcases hor with hor | hor
    · exact absurd rfl hor
    · exact hor
  | cons a rest ih =>
    intro c hret _
    cases hrun : run_call T a c with
    | halt why c1 =>
      simp [run_calls, hrun, Outcome.returned] at hret
    | ok r c1 =>
      have hedge : edge_on T c1.1.event := by
        have := run_call_edge_on T a c (by rw [hrun]; rfl)
        rw [hrun] at this
        exact this
      simp only [run_calls, hrun] at hret ⊢
      exact ih c1 hret (Or.inr hedge)

theorem gpio_irq_set_no_park (T : Target) (obj : gpio_irq_t) (ev : gpio_irq_event)
    (en p : Nat) (s : State) (he : gpio_irq_set_event T obj.event ev en = some p)
    (hp : p ≠ T.CG_INT_ACTIVE_STATE_INVALID) (port pin : Nat) :
    Effect.gpio_write_bit port pin 1 ∉ added s (gpio_irq_set T obj ev en s).state.2 := by
  by_cases hs : supported obj.irq_src
  · rw [gpio_irq_set_armed T obj ev en p s hs he hp]
    show Effect.gpio_write_bit port pin 1 ∉ added s (armed_state T obj p s)
    rw [added_append s _ _ (trace_armed_state T obj p s)]
    simp
  · rw [gpio_irq_set_unserved T obj ev en p s hs he hp]
    have hadd : added s (gpio_irq_enable obj
          (NVIC_ClearPendingIRQ obj.irq_id
            (gpio_write_bit obj.port obj.pin_num 0
              (load8 NULL
                (emit (.store_CurrentState p)
                  { gpio_irq_disable obj s with CurrentState := p })))))
        = [.NVIC_DisableIRQ obj.irq_id, .store_CurrentState p, .load8 NULL,
            .gpio_write_bit obj.port obj.pin_num 0, .NVIC_ClearPendingIRQ obj.irq_id,
            .NVIC_ClearPendingIRQ obj.irq_id, .NVIC_EnableIRQ obj.irq_id] := by
      apply added_append
      simp [gpio_irq_enable, gpio_irq_disable, NVIC_EnableIRQ, NVIC_DisableIRQ,
        NVIC_ClearPendingIRQ, gpio_write_bit, load8, emit]
    show Effect.gpio_write_bit port pin 1 ∉ added s (gpio_irq_enable obj
          (NVIC_ClearPendingIRQ obj.irq_id
            (gpio_write_bit obj.port obj.pin_num 0
              (load8 NULL
                (emit (.store_CurrentState p)
                  { gpio_irq_disable obj s with CurrentState := p })))))
    rw [hadd]
    simp

/-! ## C19 -/

/-- C19: on a target whose policy enumerators are pairwise distinct, for every starting
policy value, every supported edge and every enable flag, the policy `gpio_irq_set`
produces is RISING, FALLING or BOTH_EDGES and never INVALID; so the call never takes its
parked branch (the data bit is never written high; on a served channel the call returns
after the two register stores and the write of the data bit low), and after any
non-empty sequence of `gpio_irq_init` / `gpio_irq_set` calls that returns the object's
policy still has an edge on. -/
theorem gpio_irq_set_never_INVALID (T : Target) (hd : T.distinct) :
    (∀ (cur : Nat) (ev : gpio_irq_event) (en : Nat), ev = .IRQ_RISE ∨ ev = .IRQ_FALL →
      ∃ p, gpio_irq_set_event T cur ev en = some p ∧ edge_on T p ∧
        p ≠ T.CG_INT_ACTIVE_STATE_INVALID) ∧
    (∀ (obj : gpio_irq_t) (ev : gpio_irq_event) (en : Nat) (s : State),
      ev = .IRQ_RISE ∨ ev = .IRQ_FALL →
      edge_on T (gpio_irq_set T obj ev en s).state.1.event ∧
      (gpio_irq_set T obj ev en s).state.1.event ≠ T.CG_INT_ACTIVE_STATE_INVALID ∧
      (∀ port pin : Nat,
        Effect.gpio_write_bit port pin 1 ∉ added s (gpio_irq_set T obj ev en s).state.2) ∧
      (supported obj.irq_src →
        (gpio_irq_set T obj ev en s).returned = true ∧
        stores (added s (gpio_irq_set T obj ev en s).state.2)
          = [(field_of T obj.irq_src, 0xC0),
              (field_of T obj.irq_src,
                ((gpio_irq_set T obj ev en s).state.1.event ||| ENABLE) % 256)] ∧
        Effect.gpio_write_bit obj.port obj.pin_num 0
          ∈ added s (gpio_irq_set T obj ev en s).state.2)) ∧
    (∀ (calls : List ApiCall) (c : gpio_irq_t × State), calls ≠ [] →
      (run_calls T calls c).returned = true →
      edge_on T (run_calls T calls c).state.1.event ∧
      (run_calls T calls c).state.1.event ≠ T.CG_INT_ACTIVE_STATE_INVALID) := by
  refine ⟨?_, ?_, ?_⟩
  · intro cur ev en hev
    obtain ⟨p, hp⟩ := gpio_irq_set_event_some T cur ev en hev
    have hedge := gpio_irq_set_event_edge_on T cur ev en p hp
    exact ⟨p, hp, hedge, edge_on_ne_INVALID T p hd hedge⟩
  · intro obj ev en s hev
    obtain ⟨p, he⟩ := gpio_irq_set_event_some T obj.event ev en hev
    have hedge := gpio_irq_set_event_edge_on T obj.event ev en p he
    have hne := edge_on_ne_INVALID T p hd hedge
    have hevent := gpio_irq_set_state_event T obj ev en p s he
    refine ⟨by rw [hevent]; exact hedge, by rw [hevent]; exact hne,
      fun port pin => gpio_irq_set_no_park T obj ev en p s he hne port pin, ?_⟩
    intro hs
    rw [gpio_irq_set_armed T obj ev en p s hs he hne]
    have hadd : added s (armed_state T obj p s) = _ :=
      added_append s _ _ (trace_armed_state T obj p s)
    refine ⟨rfl, ?_, ?_⟩
    · show stores (added s (armed_state T obj p s)) = _
      rw [hadd]
      simp [stores, Outcome.state]
    · show _ ∈ added s (armed_state T obj p s)
      rw [hadd]
      simp
  · intro calls c hne hret
    have hedge := run_calls_edge_on T calls c hret (Or.inl hne)
    exact ⟨hedge, edge_on_ne_INVALID T _ hd hedge⟩

/-- Witness of C19 on `sampleTarget`: disabling IRQ_RISE on `objPA2` (policy INVALID,
0x0A) produces a policy other than INVALID. -/
theorem gpio_irq_set_never_INVALID_witness :
    sampleTarget.distinct ∧
    (gpio_irq_set sampleTarget objPA2 .IRQ_RISE 0 zeroState).state.1.event
      ≠ sampleTarget.CG_INT_ACTIVE_STATE_INVALID :=
  ⟨by decide,
    ((gpio_irq_set_never_INVALID sampleTarget (by decide)).2.1 objPA2 .IRQ_RISE 0 zeroState
      (Or.inl rfl)).2.1⟩

/-! ## C20 -/

/-- C20: on a target whose policy enumerators are pairwise distinct, the policy
transition of `gpio_irq_set` commutes with the exchange of the two edges: for every
policy value p, edge e in {IRQ_RISE, IRQ_FALL} and enable flag b,
next(swap p, swapE e, b) = swap(next(p, e, b)), for the transition and for the object
the whole call leaves; in particular disabling Fall from INVALID and disabling Rise from
INVALID both yield BOTH_EDGES. -/
theorem gpio_irq_set_edge_symmetry (T : Target) (hd : T.distinct) :
    (∀ (p : Nat) (e : gpio_irq_event) (b : Nat), e = .IRQ_RISE ∨ e = .IRQ_FALL →
      gpio_irq_set_event T (swap T p) (swapE e) b
        = (gpio_irq_set_event T p e b).map (swap T)) ∧
    (∀ (obj : gpio_irq_t) (e : gpio_irq_event) (b : Nat) (s : State),
      e = .IRQ_RISE ∨ e = .IRQ_FALL →
      (gpio_irq_set T { obj with event := swap T obj.event } (swapE e) b s).state.1.event
        = swap T (gpio_irq_set T obj e b s).state.1.event) ∧
    gpio_irq_set_event T T.CG_INT_ACTIVE_STATE_INVALID .IRQ_FALL 0
      = some T.CG_INT_ACTIVE_STATE_BOTH_EDGES ∧
    gpio_irq_set_event T T.CG_INT_ACTIVE_STATE_INVALID .IRQ_RISE 0
      = some T.CG_INT_ACTIVE_STATE_BOTH_EDGES := by
  obtain ⟨h1, h2, h3, h4, h5, h6⟩ := hd
  have hsym : ∀ (p : Nat) (e : gpio_irq_event) (b : Nat), e = .IRQ_RISE ∨ e = .IRQ_FALL →
      gpio_irq_set_event T (swap T p) (swapE e) b
        = (gpio_irq_set_event T p e b).map (swap T) := by
    intro p e b he
    have h4s := h4.symm
    have h5s := h5.symm
    have h6s := h6.symm
    have h1s := h1.symm
    have h2s := h2.symm
    have h3s := h3.symm
    rcases he with he | he <;> subst he <;>
      simp only [gpio_irq_set_event, swap, swapE] <;>
      split_ifs <;> simp_all [swap]
  refine ⟨hsym, ?_, ?_, ?_⟩
  · intro obj e b s he
    obtain ⟨p, hp⟩ := gpio_irq_set_event_some T obj.event e b he
    have hq : gpio_irq_set_event T (swap T obj.event) (swapE e) b = some (swap T p) := by
      rw [hsym obj.event e b he, hp]
      rfl
    rw [gpio_irq_set_state_event T obj e b p s hp,
      gpio_irq_set_state_event T { obj with event := swap T obj.event } (swapE e) b
        (swap T p) s hq]
  · rw [gpio_irq_set_event_fall_off, if_pos (Or.inr rfl)]
  · rw [gpio_irq_set_event_rise_off, if_pos (Or.inr rfl)]

/-- Witness of C20 on `sampleTarget`: from FALLING (0x04), disabling IRQ_FALL yields
BOTH_EDGES (0x08), and so does disabling IRQ_RISE from RISING (0x06), its exchange. -/
theorem gpio_irq_set_edge_symmetry_witness :
    sampleTarget.distinct ∧
    gpio_irq_set_event sampleTarget (swap sampleTarget 0x04) (swapE .IRQ_FALL) 0
      = (gpio_irq_set_event sampleTarget 0x04 .IRQ_FALL 0).map (swap sampleTarget) :=
  ⟨by decide,
    (gpio_irq_set_edge_symmetry sampleTarget (by decide)).1 0x04 .IRQ_FALL 0 (Or.inr rfl)⟩

/-! ## C16 -/

theorem armed_state_handler (T : Target) (obj : gpio_irq_t) (p : Nat) (s : State) :
    (armed_state T obj p s).hal_irq_handler = s.hal_irq_handler := rfl

theorem armed_state_ids (T : Target) (obj : gpio_irq_t) (p : Nat) (s : State) :
    (armed_state T obj p s).channel_ids = s.channel_ids := rfl

end GpioIrq
